import Mathlib

/-!
SFC_View analytics aggregation engine: a shallow embedding.

This file embeds the analytics core of the SFC_View repository
(`src/analytics/compute.py`, `src/analytics/sn_list.py`,
`src/analytics/error_stats.py`, `src/config/pass_rules.py`,
`src/config/analytics_config.py`, `src/analytics/bp_check.py`) into Lean
and proves the testable properties of its specification.

Modelling conventions:
* Python `dict` rows become a `Row` structure; a `.get(k)` that may be
  absent or `None` becomes an `Option` field.
* Python `datetime` values become `Nat` seconds since 1970-01-01 00:00:00
  (naive timestamps, compared and subtracted exactly as the source does);
  `datetime.min` is modelled by `0`.
* Python `float` durations and rates become `ℚ`; `round(x, 2)` becomes
  `pyRound2` (round half to even, as Python's `round`).
* Python dicts used as accumulators become association lists in insertion
  order; `sorted`/`list.sort` (a stable comparison sort) becomes the
  insertion sort `isortBy`.
* String operations (`strip`, `upper`, slicing, `split`, `startswith`)
  are defined on the underlying character list so that they compute by
  kernel reduction.
-/

namespace SFC

/-! ## Python string primitives -/

/-- Python `str.strip()`: remove leading and trailing whitespace. -/
def pyStrip (s : String) : String :=
  ⟨((s.data.dropWhile Char.isWhitespace).reverse.dropWhile Char.isWhitespace).reverse⟩

/-- Python `str.upper()` (ASCII case mapping suffices for this code base). -/
def pyUpper (s : String) : String :=
  ⟨s.data.map Char.toUpper⟩

/-- Python slicing `s[:n]` (by characters). -/
def pyTake (s : String) (n : Nat) : String :=
  ⟨s.data.take n⟩

/-- Python `len(s)` (in characters). -/
def pyLen (s : String) : Nat :=
  s.data.length

/-- `_norm(s)` from `compute.py` / `sn_list.py` / `error_stats.py` applied to a
possibly-missing string field: `(str(s) if s is not None else "").strip().upper()`.
All call sites pass either a string or `x or ""`, so the argument is the field's
value with `none` for missing/`None`. -/
def pyNorm (s : Option String) : String :=
  pyUpper (pyStrip (s.getD ""))

/-- Python truthiness of an optional string (`if sku:` …): `None` and `""` are falsy. -/
def pyTruthy (s : Option String) : Bool :=
  !(s.getD "").isEmpty

/-- Python `s.startswith(p)`. -/
def pyStartsWith (s p : String) : Bool :=
  p.data.isPrefixOf s.data

/-- Python `s.split(sep)` for a one-character separator (as in `metric.split("_")`). -/
def pySplitChar (c : Char) (s : String) : List String :=
  (s.data.foldr
    (fun ch acc =>
      if ch = c then [] :: acc
      else
        match acc with
        | h :: t => (ch :: h) :: t
        | [] => [[ch]])
    [[]]).map String.mk

/-! ## Python numeric primitives -/

/-- Python `round(q, 2)`: round to two decimals, ties to even (banker's rounding). -/
def pyRound2 (q : ℚ) : ℚ :=
  let x : ℚ := q * 100
  let f : Int := ⌊x⌋
  let r : ℚ := x - (f : ℚ)
  let n : Int :=
    if r < 1/2 then f
    else if 1/2 < r then f + 1
    else if f % 2 = 0 then f else f + 1
  (n : ℚ) / 100

/-- Python `int(q)`: truncation toward zero. -/
def pyTrunc (q : ℚ) : Int :=
  if 0 ≤ q then ⌊q⌋ else -⌊-q⌋

/-! ## Association lists (the model of Python `dict` in insertion order) -/

section Assoc

variable {κ : Type} [DecidableEq κ] {β : Type} {ε : Type}

/-- First-match lookup, the model of `d.get(k)` / `d[k]`. -/
def alookup : List (κ × β) → κ → Option β
  | [], _ => none
  | p :: ps, k => if p.1 = k then some p.2 else alookup ps k

/-- The keys of an association list, in insertion order (`d.keys()`). -/
abbrev keysOf (m : List (κ × β)) : List κ :=
  m.map Prod.fst

/-- In-place update of the value stored at key `k` (`d[k] = f(d[k])`). -/
def updAssoc (m : List (κ × β)) (k : κ) (f : β → β) : List (κ × β) :=
  m.map fun p => if p.1 = k then (p.1, f p.2) else p

/-- One step of `d.setdefault(key(x), []).append(x)` grouping; `kf x = none`
models the `continue` branches that skip an element. -/
def groupStep (kf : ε → Option κ) (m : List (κ × List ε)) (x : ε) : List (κ × List ε) :=
  match kf x with
  | none => m
  | some k =>
    if k ∈ keysOf m then updAssoc m k (fun l => l ++ [x])
    else m ++ [(k, [x])]

/-- Grouping a sequence by a partial key, keys in first-encounter order:
the model of the `setdefault`-append loops of the source. -/
def groupByKey (kf : ε → Option κ) (l : List ε) : List (κ × List ε) :=
  l.foldl (groupStep kf) []

theorem keysOf_updAssoc (m : List (κ × β)) (k : κ) (f : β → β) :
    keysOf (updAssoc m k f) = keysOf m := by
  induction m with
  | nil => rfl
  | cons p ps ih =>
    by_cases h : p.1 = k <;> simp only [keysOf, updAssoc, List.map_cons, h, if_pos, if_neg] <;>
      simp_all [keysOf, updAssoc]

theorem alookup_updAssoc_self (m : List (κ × β)) (k : κ) (f : β → β) :
    alookup (updAssoc m k f) k = (alookup m k).map f := by
  induction m with
  | nil => rfl
  | cons p ps ih =>
    by_cases h : p.1 = k
    · simp [updAssoc, alookup, h]
    · simp only [updAssoc, List.map_cons, if_neg h]
      simp only [alookup, h, if_neg, if_false]
      simp only [updAssoc] at ih
      exact ih

theorem alookup_updAssoc_ne (m : List (κ × β)) (k k' : κ) (f : β → β) (h : k' ≠ k) :
    alookup (updAssoc m k f) k' = alookup m k' := by
  induction m with
  | nil => rfl
  | cons p ps ih =>
    by_cases hp : p.1 = k
    · have hne : p.1 ≠ k' := by
        rw [hp]
        exact fun hk => h hk.symm
      have hne2 : ¬((p.1, f p.2).1 = k') := hne
      simp only [updAssoc, List.map_cons, if_pos hp]
      simp only [alookup, hne2, hne, if_neg, if_false]
      simp only [updAssoc] at ih
      exact ih
    · simp only [updAssoc, List.map_cons, if_neg hp]
      by_cases hp' : p.1 = k'
      · simp [alookup, hp']
      · simp only [alookup, hp', if_neg, if_false]
        simp only [updAssoc] at ih
        exact ih

theorem mem_keysOf_iff_isSome (m : List (κ × β)) (k : κ) :
    k ∈ keysOf m ↔ (alookup m k).isSome := by
  induction m with
  | nil => simp [keysOf, alookup]
  | cons p ps ih =>
    by_cases h : p.1 = k
    · simp [keysOf, alookup, h]
    · simp only [keysOf, List.map_cons, List.mem_cons, alookup, h, if_neg]
      rw [keysOf] at ih
      simp [ih, Ne.symm h]

theorem mem_of_alookup_eq_some (m : List (κ × β)) (k : κ) (v : β)
    (h : alookup m k = some v) : (k, v) ∈ m := by
  induction m with
  | nil => cases h
  | cons p ps ih =>
    by_cases hp : p.1 = k
    · rw [alookup, if_pos hp] at h
      cases h
      rw [← hp]
      simpa using List.mem_cons_self p ps
    · rw [alookup, if_neg hp] at h
      exact List.mem_cons_of_mem _ (ih h)

theorem alookup_of_mem_nodup (m : List (κ × β)) (p : κ × β)
    (hmem : p ∈ m) (hnd : (keysOf m).Nodup) : alookup m p.1 = some p.2 := by
  induction m with
  | nil => cases hmem
  | cons q qs ih =>
    rcases List.mem_cons.mp hmem with rfl | hmem'
    · simp [alookup]
    · have hq : q.1 ≠ p.1 := by
        intro h
        have hmemk : p.1 ∈ keysOf qs := List.mem_map.mpr ⟨p, hmem', rfl⟩
        exact (List.nodup_cons.mp hnd).1 (h ▸ hmemk)
      rw [alookup, if_neg hq]
      exact ih hmem' (List.nodup_cons.mp hnd).2

theorem keysOf_groupStep (kf : ε → Option κ) (m : List (κ × List ε)) (x : ε) :
    keysOf (groupStep kf m x) =
      match kf x with
      | none => keysOf m
      | some k => if k ∈ keysOf m then keysOf m else keysOf m ++ [k] := by
  cases h : kf x with
  | none => simp [groupStep, h]
  | some k =>
    simp only [groupStep, h]
    by_cases hk : k ∈ keysOf m
    · rw [if_pos hk, if_pos hk, keysOf_updAssoc]
    · rw [if_neg hk, if_neg hk]
      simp [keysOf]

theorem nodup_keys_groupByKey_go (kf : ε → Option κ) (l : List ε)
    (m : List (κ × List ε)) (h : (keysOf m).Nodup) :
    (keysOf (l.foldl (groupStep kf) m)).Nodup := by
  induction l generalizing m with
  | nil => simpa using h
  | cons x xs ih =>
    refine ih (groupStep kf m x) ?_
    rw [keysOf_groupStep]
    cases hx : kf x with
    | none => exact h
    | some k =>
      by_cases hk : k ∈ keysOf m
      · simpa [hk] using h
      · simp only [hk, if_neg, not_false_iff]
        exact List.Nodup.append h (List.nodup_singleton k) (by simpa using hk)

theorem nodup_keys_groupByKey (kf : ε → Option κ) (l : List ε) :
    (keysOf (groupByKey kf l)).Nodup :=
  nodup_keys_groupByKey_go kf l [] (by simp [keysOf])

theorem mem_keys_groupByKey_go (kf : ε → Option κ) (l : List ε)
    (m : List (κ × List ε)) (k : κ) :
    k ∈ keysOf (l.foldl (groupStep kf) m) ↔ k ∈ keysOf m ∨ ∃ x ∈ l, kf x = some k := by
  induction l generalizing m with
  | nil => simp
  | cons x xs ih =>
    rw [List.foldl_cons, ih]
    have hstep : k ∈ keysOf (groupStep kf m x) ↔ k ∈ keysOf m ∨ kf x = some k := by
      rw [keysOf_groupStep]
      cases hx : kf x with
      | none => simp [hx]
      | some k' =>
        by_cases hk' : k' ∈ keysOf m
        · simp only [hk', if_pos]
          constructor
          · exact fun h => Or.inl h
          · rintro (h | h)
            · exact h
            · cases h; exact hk'
        · simp only [hk', if_neg, not_false_iff, List.mem_append, List.mem_singleton]
          constructor
          · rintro (h | rfl)
            · exact Or.inl h
            · exact Or.inr rfl
          · rintro (h | h)
            · exact Or.inl h
            · cases h; exact Or.inr rfl
    rw [hstep]
    constructor
    · rintro ((h | h) | ⟨y, hy, hk⟩)
      · exact Or.inl h
      · exact Or.inr ⟨x, List.mem_cons_self _ _, h⟩
      · exact Or.inr ⟨y, List.mem_cons_of_mem _ hy, hk⟩
    · rintro (h | ⟨y, hy, hk⟩)
      · exact Or.inl (Or.inl h)
      · rcases List.mem_cons.mp hy with rfl | hy'
        · exact Or.inl (Or.inr hk)
        · exact Or.inr ⟨y, hy', hk⟩

theorem mem_keys_groupByKey (kf : ε → Option κ) (l : List ε) (k : κ) :
    k ∈ keysOf (groupByKey kf l) ↔ ∃ x ∈ l, kf x = some k := by
  rw [groupByKey, mem_keys_groupByKey_go]
  simp [keysOf]

theorem groupByKey_go_entries (kf : ε → Option κ) (l : List ε) :
    ∀ (m : List (κ × List ε)) (pre : List ε),
      (∀ p ∈ m, p.2 = pre.filter fun x => kf x = some p.1) →
      (∀ k, k ∉ keysOf m → (pre.filter fun x => kf x = some k) = []) →
      ∀ p ∈ l.foldl (groupStep kf) m, p.2 = (pre ++ l).filter fun x => kf x = some p.1 := by
  induction l with
  | nil =>
    intro m pre h1 _ p hp
    simpa using h1 p hp
  | cons x xs ih =>
    intro m pre h1 h2 p hp
    rw [List.foldl_cons] at hp
    have hpre : pre ++ x :: xs = (pre ++ [x]) ++ xs := by simp
    rw [hpre]
    refine ih (groupStep kf m x) (pre ++ [x]) ?_ ?_ p hp
    · -- first invariant for the extended state
      intro q hq
      cases hx : kf x with
      | none =>
        simp only [groupStep, hx] at hq
        have hq1 := h1 q hq
        rw [List.filter_append, hq1]
        have hxq : ([x].filter fun y => kf y = some q.1) = [] := by
          simp [List.filter_cons, hx]
        rw [hxq, List.append_nil]
      | some k' =>
        simp only [groupStep, hx] at hq
        by_cases hk' : k' ∈ keysOf m
        · rw [if_pos hk'] at hq
          rcases List.mem_map.mp hq with ⟨q0, hq0, hq0eq⟩
          by_cases hq0k : q0.1 = k'
          · rw [if_pos hq0k] at hq0eq
            have hval := h1 q0 hq0
            subst hq0eq
            rw [List.filter_append, ← hval]
            have hxq : ([x].filter fun y => kf y = some q0.1) = [x] := by
              simp [List.filter_cons, hx, hq0k]
            rw [hxq]
          · rw [if_neg hq0k] at hq0eq
            subst hq0eq
            have hval := h1 q0 hq0
            rw [List.filter_append, ← hval]
            have hnx : ¬(kf x = some q0.1) := by
              rw [hx]
              intro h
              injection h with h3
              exact hq0k h3.symm
            have hxq : ([x].filter fun y => kf y = some q0.1) = [] := by
              simp [List.filter_cons, hnx]
            rw [hxq, List.append_nil]
        · rw [if_neg hk'] at hq
          rcases List.mem_append.mp hq with hq' | hq'
          · have hqk : q.1 ≠ k' := by
              intro h
              exact hk' (h ▸ List.mem_map.mpr ⟨q, hq', rfl⟩)
            have hval := h1 q hq'
            rw [List.filter_append, ← hval]
            have hnx : ¬(kf x = some q.1) := by
              rw [hx]
              intro h
              injection h with h3
              exact hqk h3.symm
            have hxq : ([x].filter fun y => kf y = some q.1) = [] := by
              simp [List.filter_cons, hnx]
            rw [hxq, List.append_nil]
          · rcases List.mem_singleton.mp hq' with rfl
            have hval := h2 k' hk'
            rw [List.filter_append, hval]
            simp [List.filter_cons, hx]
    · -- second invariant for the extended state
      intro k hk
      cases hx : kf x with
      | none =>
        simp only [groupStep, hx] at hk
        rw [List.filter_append, h2 k hk]
        simp [List.filter_cons, hx]
      | some k' =>
        simp only [groupStep, hx] at hk
        by_cases hk' : k' ∈ keysOf m
        · rw [if_pos hk', keysOf_updAssoc] at hk
          have hkk : k ≠ k' := fun h => hk (h ▸ hk')
          have hnx : ¬(kf x = some k) := by
            rw [hx]
            intro h
            injection h with h3
            exact hkk h3.symm
          rw [List.filter_append, h2 k hk]
          simp [List.filter_cons, hnx]
        · rw [if_neg hk'] at hk
          have hkm : k ∉ keysOf m := by
            intro h
            apply hk
            simp only [keysOf, List.map_append]
            exact List.mem_append.mpr (Or.inl h)
          have hkk : k ≠ k' := by
            intro h
            apply hk
            simp [keysOf, List.map_append, h]
          have hnx : ¬(kf x = some k) := by
            rw [hx]
            intro h
            injection h with h3
            exact hkk h3.symm
          rw [List.filter_append, h2 k hkm]
          simp [List.filter_cons, hnx]

theorem groupByKey_entries (kf : ε → Option κ) (l : List ε) (p : κ × List ε)
    (hmem : p ∈ groupByKey kf l) :
    p.2 = l.filter fun x => kf x = some p.1 := by
  have h := groupByKey_go_entries kf l [] [] (by intro q hq; cases hq)
    (by intro k _; rfl) p hmem
  simpa using h

theorem alookup_groupByKey_of_mem (kf : ε → Option κ) (l : List ε) (k : κ)
    (h : k ∈ keysOf (groupByKey kf l)) :
    alookup (groupByKey kf l) k = some (l.filter fun x => kf x = some k) := by
  have hs := (mem_keysOf_iff_isSome _ k).mp h
  obtain ⟨v, hv⟩ := Option.isSome_iff_exists.mp hs
  have hmem := mem_of_alookup_eq_some _ _ _ hv
  have hval := groupByKey_entries kf l (k, v) hmem
  rw [hv]
  exact congrArg some (by simpa using hval)

theorem alookup_groupByKey_of_not_mem (kf : ε → Option κ) (l : List ε) (k : κ)
    (h : ¬∃ x ∈ l, kf x = some k) :
    alookup (groupByKey kf l) k = none := by
  have hk : k ∉ keysOf (groupByKey kf l) := fun hmem =>
    h ((mem_keys_groupByKey kf l k).mp hmem)
  rw [mem_keysOf_iff_isSome] at hk
  exact Option.not_isSome_iff_eq_none.mp hk

/-- Map over the values of an association list (`{k: f(v) for k, v in d.items()}`). -/
theorem alookup_map_snd (m : List (κ × β)) (f : β → ε) (k : κ) :
    alookup (m.map fun p => (p.1, f p.2)) k = (alookup m k).map f := by
  induction m with
  | nil => rfl
  | cons p ps ih =>
    by_cases h : p.1 = k
    · subst h
      simp [alookup]
    · simp [alookup, h, ih]

theorem keysOf_map_snd (m : List (κ × β)) (f : β → ε) :
    keysOf (m.map fun p => (p.1, f p.2)) = keysOf m := by
  induction m with
  | nil => rfl
  | cons p ps ih =>
    simp only [keysOf, List.map_cons, List.map_map] at ih ⊢
    rw [ih]

end Assoc

/-! ## Counting helpers -/

theorem length_filter_partition {α : Type} (l : List α) (p q : α → Bool) :
    (l.filter p).length =
      (l.filter fun x => p x && q x).length + (l.filter fun x => p x && !q x).length := by
  induction l with
  | nil => rfl
  | cons x xs ih =>
    by_cases hp : p x <;> by_cases hq : q x <;>
      simp [List.filter_cons, hp, hq, ih] <;> omega

theorem length_filter_true_partition {α : Type} (l : List α) (q : α → Bool) :
    l.length = (l.filter q).length + (l.filter fun x => !q x).length := by
  have h := length_filter_partition l (fun _ => true) q
  simpa using h

/-- A list-valued association list where each value is determined by its key:
filtering entries by a value predicate counts the same as filtering keys. -/
theorem assoc_filter_length {κ β : Type} (m : List (κ × β)) (G : κ → β)
    (hG : ∀ p ∈ m, p.2 = G p.1) (f : β → Bool) :
    (m.filter fun p => f p.2).length = ((keysOf m).filter fun k => f (G k)).length := by
  induction m with
  | nil => rfl
  | cons p ps ih =>
    have hp : p.2 = G p.1 := hG p (List.mem_cons_self _ _)
    have ihp := ih fun q hq => hG q (List.mem_cons_of_mem _ hq)
    by_cases h : f p.2
    · have h' : f (G p.1) = true := hp ▸ h
      simp only [List.filter_cons, h, if_pos, keysOf, List.map_cons, h', List.length_cons]
      rw [keysOf] at ihp
      rw [ihp]
    · have h' : ¬(f (G p.1) = true) := hp ▸ h
      simp only [List.filter_cons, h, if_neg, keysOf, List.map_cons, h']
      rw [keysOf] at ihp
      simpa [h, h'] using ihp

/-! ## Stable insertion sort (the model of Python `sorted` / `list.sort`) -/

section Sorting

variable {α : Type}

/-- Insert into an already sorted list, after any element `b` with `le b a`
(so equal keys keep their original relative order, like Python's stable sort). -/
def ordInsert (le : α → α → Bool) (a : α) : List α → List α
  | [] => [a]
  | b :: l => if le b a then b :: ordInsert le a l else a :: b :: l

/-- Stable insertion sort with a boolean "less or equal" comparison. -/
def isortBy (le : α → α → Bool) : List α → List α
  | [] => []
  | a :: l => ordInsert le a (isortBy le l)

theorem perm_ordInsert (le : α → α → Bool) (a : α) (l : List α) :
    (ordInsert le a l).Perm (a :: l) := by
  induction l with
  | nil => rfl
  | cons b xs ih =>
    by_cases h : le b a
    · simp only [ordInsert, h, if_pos]
      exact (ih.cons b).trans (List.Perm.swap a b xs)
    · simp [ordInsert, h]

theorem perm_isortBy (le : α → α → Bool) (l : List α) : (isortBy le l).Perm l := by
  induction l with
  | nil => rfl
  | cons a xs ih =>
    exact (perm_ordInsert le a (isortBy le xs)).trans (ih.cons a)

theorem length_isortBy (le : α → α → Bool) (l : List α) :
    (isortBy le l).length = l.length :=
  (perm_isortBy le l).length_eq

theorem pairwise_ordInsert (le : α → α → Bool)
    (htot : ∀ a b, le a b || le b a)
    (htrans : ∀ a b c, le a b = true → le b c = true → le a c = true)
    (a : α) (l : List α) (h : l.Pairwise fun x y => le x y = true) :
    (ordInsert le a l).Pairwise fun x y => le x y = true := by
  induction l with
  | nil => simp [ordInsert]
  | cons b xs ih =>
    rcases List.pairwise_cons.mp h with ⟨hb, hxs⟩
    by_cases hba : le b a
    · simp only [ordInsert, hba, if_pos]
      refine List.pairwise_cons.mpr ⟨?_, ih hxs⟩
      intro y hy
      have hmem := (perm_ordInsert le a xs).mem_iff.mp hy
      rcases List.mem_cons.mp hmem with rfl | hyxs
      · exact hba
      · exact hb y hyxs
    · have hab : le a b := by
        rcases Bool.or_eq_true_iff.mp (htot a b) with h' | h'
        · exact h'
        · exact absurd h' hba
      simp only [ordInsert, hba, if_neg, Bool.not_eq_true]
      refine List.pairwise_cons.mpr ⟨?_, h⟩
      intro y hy
      rcases List.mem_cons.mp hy with rfl | hyxs
      · exact hab
      · exact htrans a b y hab (hb y hyxs)

theorem pairwise_isortBy (le : α → α → Bool)
    (htot : ∀ a b, le a b || le b a)
    (htrans : ∀ a b c, le a b = true → le b c = true → le a c = true)
    (l : List α) : (isortBy le l).Pairwise fun x y => le x y = true := by
  induction l with
  | nil => simp [isortBy]
  | cons a xs ih => exact pairwise_ordInsert le htot htrans a (isortBy le xs) ih

/-- In a list sorted by `le`, the first element found by `find?` realises the
minimum of the sort key among all elements satisfying the predicate. -/
theorem find?_sorted_minimal (le : α → α → Bool) (p : α → Bool)
    (hrefl : ∀ a, le a a) (l : List α)
    (hsort : l.Pairwise fun x y => le x y = true) (x : α)
    (hfind : l.find? p = some x) :
    ∀ y ∈ l, p y = true → le x y := by
  induction l with
  | nil => cases hfind
  | cons a xs ih =>
    rcases List.pairwise_cons.mp hsort with ⟨ha, hxs⟩
    by_cases hpa : p a
    · rw [List.find?_cons_of_pos _ hpa] at hfind
      injection hfind with hax
      subst hax
      intro y hy _
      rcases List.mem_cons.mp hy with rfl | hyxs
      · exact hrefl y
      · exact ha y hyxs
    · rw [List.find?_cons_of_neg _ (by simpa using hpa)] at hfind
      intro y hy hpy
      rcases List.mem_cons.mp hy with rfl | hyxs
      · exact absurd hpy (by simpa using hpa)
      · exact ih hxs hfind y hyxs hpy

end Sorting

/-! ## SHA-256 (`hashlib.sha256(...).hexdigest()`), on `Nat` words mod 2^32 -/

def u32 : Nat := 4294967296

def rotr32 (x n : Nat) : Nat :=
  ((x >>> n) ||| (x <<< (32 - n))) % u32

def bsig0 (x : Nat) : Nat := (rotr32 x 2) ^^^ (rotr32 x 13) ^^^ (rotr32 x 22)

def bsig1 (x : Nat) : Nat := (rotr32 x 6) ^^^ (rotr32 x 11) ^^^ (rotr32 x 25)

def ssig0 (x : Nat) : Nat := (rotr32 x 7) ^^^ (rotr32 x 18) ^^^ (x >>> 3)

def ssig1 (x : Nat) : Nat := (rotr32 x 17) ^^^ (rotr32 x 19) ^^^ (x >>> 10)

def sha256K : List Nat :=
  [1116352408, 1899447441, 3049323471, 3921009573, 961987163, 1508970993,
   2453635748, 2870763221, 3624381080, 310598401, 607225278, 1426881987,
   1925078388, 2162078206, 2614888103, 3248222580, 3835390401, 4022224774,
   264347078, 604807628, 770255983, 1249150122, 1555081692, 1996064986,
   2554220882, 2821834349, 2952996808, 3210313671, 3336571891, 3584528711,
   113926993, 338241895, 666307205, 773529912, 1294757372, 1396182291,
   1695183700, 1986661051, 2177026350, 2456956037, 2730485921, 2820302411,
   3259730800, 3345764771, 3516065817, 3600352804, 4094571909, 275423344,
   430227734, 506948616, 659060556, 883997877, 958139571, 1322822218,
   1537002063, 1747873779, 1955562222, 2024104815, 2227730452, 2361852424,
   2428436474, 2756734187, 3204031479, 3329325298]

def sha256H0 : List Nat :=
  [1779033703, 3144134277, 1013904242, 2773480762,
   1359893119, 2600822924, 528734635, 1541459225]

/-- Pad a byte message per FIPS 180-4: `0x80`, zeros to 56 mod 64, 8-byte big-endian bit length. -/
def sha256Pad (msg : List Nat) : List Nat :=
  let len := msg.length
  let r := (len + 1) % 64
  let zeros := if r ≤ 56 then 56 - r else 120 - r
  let bits := len * 8
  msg ++ [0x80] ++ List.replicate zeros 0 ++
    ((List.range 8).map fun i => (bits >>> (8 * (7 - i))) % 256)

/-- Big-endian 32-bit word `j` of a 64-byte chunk. -/
def chunkWord (chunk : List Nat) (j : Nat) : Nat :=
  (chunk.getD (4 * j) 0) <<< 24 ||| (chunk.getD (4 * j + 1) 0) <<< 16 |||
    (chunk.getD (4 * j + 2) 0) <<< 8 ||| chunk.getD (4 * j + 3) 0

/-- The 64-entry message schedule of a chunk. -/
def sha256Schedule (chunk : List Nat) : List Nat :=
  (List.range 64).foldl
    (fun ws i =>
      ws ++ [if i < 16 then chunkWord chunk i
             else (ssig1 (ws.getD (i - 2) 0) + ws.getD (i - 7) 0 +
                   ssig0 (ws.getD (i - 15) 0) + ws.getD (i - 16) 0) % u32])
    []

/-- One round of the compression function on the 8-word working state. -/
def sha256Round (k w : Nat) (st : List Nat) : List Nat :=
  let a := st.getD 0 0
  let b := st.getD 1 0
  let c := st.getD 2 0
  let d := st.getD 3 0
  let e := st.getD 4 0
  let f := st.getD 5 0
  let g := st.getD 6 0
  let h := st.getD 7 0
  let ch := (e &&& f) ^^^ ((e ^^^ (u32 - 1)) &&& g)
  let t1 := (h + bsig1 e + ch + k + w) % u32
  let maj := (a &&& b) ^^^ (a &&& c) ^^^ (b &&& c)
  let t2 := (bsig0 a + maj) % u32
  [(t1 + t2) % u32, a, b, c, (d + t1) % u32, e, f, g]

/-- Process one 64-byte chunk into the running hash state. -/
def sha256Chunk (hs : List Nat) (chunk : List Nat) : List Nat :=
  let ws := sha256Schedule chunk
  let st := (List.range 64).foldl (fun st i => sha256Round (sha256K.getD i 0) (ws.getD i 0) st) hs
  (hs.zip st).map fun p => (p.1 + p.2) % u32

/-- SHA-256 digest (as eight 32-bit words) of a byte message. -/
def sha256Words (msg : List Nat) : List Nat :=
  let padded := sha256Pad msg
  ((List.range (padded.length / 64)).map fun i => (padded.drop (64 * i)).take 64).foldl
    sha256Chunk sha256H0

def hexDigit (n : Nat) : Char :=
  "0123456789abcdef".data.getD n '0'

def wordHex (w : Nat) : List Char :=
  (List.range 8).map fun i => hexDigit ((w >>> (28 - 4 * i)) % 16)

/-- `hashlib.sha256(s.encode("utf-8", errors="replace")).hexdigest()` (Lean strings
are valid Unicode, so the `replace` error handler never fires). -/
def sha256Hex (s : String) : String :=
  ⟨(sha256Words (s.data.flatMap fun c => (String.utf8EncodeChar c).map (·.toNat))).flatMap wordHex⟩

/-! ## The row data model -/

/-- One test-event record (a Python dict row).  Base fields come from the SFC
parser; `is_bonepile` is attached by `add_bp_to_rows`; `station_group`,
`error_key`, `row_open` (the dict key `"open"`), `clear_time` and `ttc_minutes`
are attached by the error-stats path.  An outer `none` models an absent dict
key; for `clear_time`/`ttc_minutes` the inner `Option` models a present key
holding Python `None`.  `test_time_dt` is `none` when the key is absent *or*
holds `None` (no reader distinguishes the two). -/
structure Row where
  serial_number : Option String := none
  part_number : Option String := none
  station : Option String := none
  result : Option String := none
  test_time : Option String := none
  test_time_dt : Option Nat := none
  error_code : Option String := none
  failure_msg : Option String := none
  current_station : Option String := none
  station_instance : Option String := none
  is_bonepile : Option Bool := none
  station_group : Option String := none
  error_key : Option String := none
  row_open : Option Bool := none
  clear_time : Option (Option Nat) := none
  ttc_minutes : Option (Option ℚ) := none
deriving DecidableEq, Inhabited

/-- `r.get("ttc_minutes")`: absent key and present-`None` both read as `None`. -/
def Row.ttcVal (r : Row) : Option ℚ := r.ttc_minutes.getD none

/-- `r.get("clear_time")` read as an optional timestamp. -/
def Row.clearVal (r : Row) : Option Nat := r.clear_time.getD none

/-- Truthiness of `r.get("open")` (absent key is falsy). -/
def Row.openVal (r : Row) : Bool := r.row_open.getD false

/-- `(r.get("serial_number") or "").strip()`, the SN key used everywhere. -/
def snKeyOf (r : Row) : String := pyStrip (r.serial_number.getD "")

/-- Key function of the SN grouping loops (blank SNs are skipped). -/
def snGroupKey (r : Row) : Option String :=
  let sn := snKeyOf r
  if sn = "" then none else some sn

/-! ## Configuration (`config/analytics_config.py`, injected per §6 of the spec) -/

/-- The injected configuration: station display order, the per-station pass-rule
part-number lists as returned by `get_pass_rules()` (one entry per station of
`stations_order`, in order) with the `unknown_station` fallback, the TTC bucket
thresholds and the p90 fraction. -/
structure Config where
  stations_order : List String
  pass_rules : List (String × List String)
  unknown_station : String
  ttc_buckets : List Nat
  p90 : ℚ

/-- `_DEFAULT_CONFIG` of `analytics_config.py`. -/
def defaultConfig : Config where
  stations_order := ["FLA", "FLB", "AST", "FTS", "FCT", "RIN", "NVL"]
  pass_rules :=
    [("FLA", []), ("FLB", []), ("AST", []), ("FTS", []),
     ("FCT", ["675-24109-0010-TS2", "675-24109-0020-TS2"]), ("RIN", []), ("NVL", [])]
  unknown_station := "RIN"
  ttc_buckets := [5, 15, 60]
  p90 := 9 / 10

/-! ## Pass-rule evaluator (`config/pass_rules.py`) -/

/-- `get_pass_station_for_part_number`: resolve the station at which a part
number counts as passed, falling back to the `unknown_station` default. -/
def get_pass_station_for_part_number (cfg : Config) (part_number : String) : String :=
  let pn := pyUpper (pyStrip part_number)
  let unknown := pyUpper (pyStrip (if cfg.unknown_station.isEmpty then "RIN" else cfg.unknown_station))
  if pn = "" ∨ pn = "UNKNOWN" then unknown
  else
    match cfg.pass_rules.find? (fun p => p.2.any fun x => pyUpper (pyStrip x) = pn) with
    | some p => pyUpper (pyStrip p.1)
    | none => unknown

/-- `is_sn_passed`: the SN has at least one row with `result == "PASS"`, a known
part number, and a station equal to that part number's pass station. -/
def is_sn_passed (cfg : Config) (rows_for_sn : List Row) : Bool :=
  rows_for_sn.any fun r =>
    let result := pyUpper (pyStrip (r.result.getD ""))
    let station := pyUpper (pyStrip (r.station.getD ""))
    let part_number := pyStrip (r.part_number.getD "")
    decide (result = "PASS") && !part_number.isEmpty &&
      !(decide (pyUpper part_number = "UNKNOWN")) &&
      decide (station = get_pass_station_for_part_number cfg part_number)

/-! ## Bonepile membership (`analytics/bp_check.py`) -/

/-- `add_bp_to_rows`: tag each row with membership of its SN in the cached
bonepile SN set (passed explicitly; the source loads it from a process cache). -/
def add_bp_to_rows (bp_sn_set : List String) (rows : List Row) : List Row :=
  rows.map fun r => { r with is_bonepile := some (bp_sn_set.contains (snKeyOf r)) }

/-! ## Calendar and period bucketing (`compute.py`) -/

/-- Civil date (year, month, day) from a day count since 1970-01-01
(Howard Hinnant's algorithm, as `datetime.date` would render it). -/
def civilFromDays (z0 : Int) : Int × Nat × Nat :=
  let z := z0 + 719468
  let era : Int := Int.fdiv z 146097
  let doe : Nat := (z - era * 146097).toNat
  let yoe : Nat := (doe - doe / 1460 + doe / 36524 - doe / 146096) / 365
  let doy : Nat := doe - (365 * yoe + yoe / 4 - yoe / 100)
  let mp : Nat := (5 * doy + 2) / 153
  let d : Nat := doy - (153 * mp + 2) / 5 + 1
  let m : Nat := if mp < 10 then mp + 3 else mp - 9
  ((if m ≤ 2 then (yoe : Int) + era * 400 + 1 else (yoe : Int) + era * 400), m, d)

def pad2 (n : Nat) : String :=
  if n < 10 then "0" ++ toString n else toString n

/-- `d.strftime("%Y-%m-%d")`. -/
def dateStrOfDays (days : Int) : String :=
  let c := civilFromDays days
  toString c.1 ++ "-" ++ pad2 c.2.1 ++ "-" ++ pad2 c.2.2

/-- `d.strftime("%Y-%m")`. -/
def ymStrOfDays (days : Int) : String :=
  let c := civilFromDays days
  toString c.1 ++ "-" ++ pad2 c.2.1

/-- `_row_to_ca_date`: `pytz`'s `localize` attaches a timezone without moving
the clock, so `CA_TZ.localize(dt).date()` is `dt.date()`, and the `except`
fallback returns `dt.date()` as well; the calendar date is the day number. -/
def row_to_ca_date (dt : Option Nat) : Option Int :=
  dt.map fun t => ((t / 86400 : Nat) : Int)

/-- `_date_to_period`: daily `YYYY-MM-DD`, weekly `start~end` anchored to
Sunday, monthly `YYYY-MM`.  Day 0 (1970-01-01) is a Thursday, so Python's
`weekday()` is `(days + 3) % 7` and `days_since_sunday = (weekday + 1) % 7`. -/
def date_to_period (d : Int) (aggregation : String) : String :=
  if aggregation = "monthly" then ymStrOfDays d
  else if aggregation = "weekly" then
    let daysSinceSunday : Int := (d + 4) % 7
    let weekStart := d - daysSinceSunday
    dateStrOfDays weekStart ++ "~" ++ dateStrOfDays (weekStart + 6)
  else dateStrOfDays d

/-- `_row_result_to_pf`: map a raw result to `P`/`F` (note the `_norm`). -/
def row_result_to_pf (result : Option String) : Option String :=
  let r := pyNorm result
  if r = "PASS" then some "P"
  else if r = "FAIL" then some "F"
  else none

/-! ## Test-stage tag extraction (`_ts_group_from_part_number`) -/

def isWordChar (c : Char) : Bool := c.isAlphanum || c = '_'

def natOfDigits (ds : List Char) : Nat :=
  ds.foldl (fun n c => n * 10 + (c.toNat - 48)) 0

/-- Scan for the first `\bTS(\d+)\b` match; `prev` is whether the previous
character was a word character (for the left boundary). -/
def tsScanAux : Bool → List Char → Option Nat
  | _, [] => none
  | prev, c :: rest =>
    if !prev && c = 'T' then
      match rest with
      | 'S' :: rest2 =>
        let ds := rest2.takeWhile Char.isDigit
        let after := rest2.drop ds.length
        if !ds.isEmpty && !isWordChar (after.headD ' ') then some (natOfDigits ds)
        else tsScanAux (isWordChar c) rest
      | _ => tsScanAux (isWordChar c) rest
    else tsScanAux (isWordChar c) rest

/-- `_ts_group_from_part_number`: `TS<digits>` token of the uppercased part
number, else the sentinel `TS?`. -/
def ts_group_from_part_number (part_number : Option String) : String :=
  let pn := pyUpper (part_number.getD "")
  match tsScanAux false pn.data with
  | some n => "TS" ++ toString n
  | none => "TS?"

/-- `ts_sort_key` (inside `compute_all`): `re.match(r"TS(\d+)$", ts)`. -/
def ts_sort_key (ts : String) : Nat × Nat :=
  let l := ts.data
  if l.take 2 = ['T', 'S'] && !(l.drop 2).isEmpty && (l.drop 2).all Char.isDigit then
    (0, natOfDigits (l.drop 2))
  else (1, 999)

/-! ## Aggregation engine (`analytics/compute.py`) -/

structure Summary where
  total : Nat
  pass : Nat
  fail : Nat
deriving DecidableEq, Inhabited

structure TrayLevel where
  bp : Nat
  fresh : Nat
  total : Nat
deriving DecidableEq, Inhabited

structure TraySummary where
  tested : TrayLevel
  pass : TrayLevel
  fail : TrayLevel
deriving DecidableEq, Inhabited

structure SkuRow where
  sku : String
  tested : Nat
  pass : Nat
  fail : Nat
deriving DecidableEq, Inhabited

structure BreakdownRow where
  period : String
  tested : Nat
  passed : Nat
  bonepile : Nat
  fresh : Nat
  pass_rate : ℚ
deriving DecidableEq, Inhabited

structure PF where
  pass : Nat
  fail : Nat
deriving DecidableEq, Inhabited

structure TestFlowRow where
  ts : String
  sku : String
  stations : List (String × PF)
deriving DecidableEq, Inhabited

structure TestFlow where
  stations : List String
  totals : List (String × PF)
  rows : List TestFlowRow
deriving DecidableEq, Inhabited

/-- The full result of `compute_all`, public tables plus the internal indices
(`_sn_tests`, `_sn_pass`, `_sn_is_bp`, `_sn_latest_part`, `_sn_latest_dt`)
required by the drill-down resolver. -/
structure AggResult where
  summary : Summary
  tray_summary : TraySummary
  sku_rows : List SkuRow
  breakdown_rows : List BreakdownRow
  test_flow : TestFlow
  rows : List Row
  sn_tests : List (String × List Row)
  sn_pass : List (String × Bool)
  sn_is_bp : List (String × Bool)
  sn_latest_part : List (String × String)
  sn_latest_dt : List (String × Option Nat)
deriving DecidableEq, Inhabited

/-- The per-SN loop computing `best_dt`/`best_pn` ("latest part number wins,
first maximum kept, rows without a timestamp skipped"). -/
def latestPartAndDt (tests : List Row) : String × Option Nat :=
  tests.foldl
    (fun acc r =>
      match r.test_time_dt with
      | none => acc
      | some dt =>
        let pn0 := pyStrip (r.part_number.getD "")
        let pn := if pn0 = "" then "Unknown" else pn0
        match acc.2 with
        | none => (pn, some dt)
        | some best => if dt > best then (pn, some dt) else acc)
    ("Unknown", none)

/-- `sku = sn_latest_part.get(sn, "Unknown") or "Unknown"`. -/
def skuOfSn (sn_latest_part : List (String × String)) (sn : String) : String :=
  let s := (alookup sn_latest_part sn).getD "Unknown"
  if s = "" then "Unknown" else s

/-- Flatten the `for sn, tests in sn_tests.items(): for r in tests:` iteration. -/
def tfPairs (snTests : List (String × List Row)) : List (String × Row) :=
  snTests.flatMap fun p => p.2.map fun r => (p.1, r)

/-- `{st: {"pass": set(), "fail": set()} for st in stations}`. -/
def tfInit (stations : List String) : List (String × Finset String × Finset String) :=
  stations.map fun st => (st, (∅ : Finset String), (∅ : Finset String))

/-- One row of the test-flow accumulation into the global per-station SN sets. -/
def tfTotalStep (m : List (String × Finset String × Finset String)) (p : String × Row) :
    List (String × Finset String × Finset String) :=
  let st := pyNorm p.2.station
  if st ∈ keysOf m then
    if row_result_to_pf p.2.result = some "P" then
      updAssoc m st fun s => (insert p.1 s.1, s.2)
    else if row_result_to_pf p.2.result = some "F" then
      updAssoc m st fun s => (s.1, insert p.1 s.2)
    else m
  else m

/-- The global `total_sets` of the test-flow loop. -/
def tfTotalSets (stations : List String) (snTests : List (String × List Row)) :
    List (String × Finset String × Finset String) :=
  (tfPairs snTests).foldl tfTotalStep (tfInit stations)

/-- The per-SKU `sku_sets` of the test-flow loop (same updates, keyed by the
SN's latest part number; state created on first encounter of each SKU). -/
def tfSkuSets (stations : List String) (snTests : List (String × List Row))
    (sn_latest_part : List (String × String)) :
    List (String × List (String × Finset String × Finset String)) :=
  snTests.foldl
    (fun m p =>
      let sku := skuOfSn sn_latest_part p.1
      let m1 := if sku ∈ keysOf m then m else m ++ [(sku, tfInit stations)]
      p.2.foldl
        (fun mm r =>
          let st := pyNorm r.station
          if st ∈ stations then
            if row_result_to_pf r.result = some "P" then
              updAssoc mm sku fun inner =>
                updAssoc inner st fun s => (insert p.1 s.1, s.2)
            else if row_result_to_pf r.result = some "F" then
              updAssoc mm sku fun inner =>
                updAssoc inner st fun s => (s.1, insert p.1 s.2)
            else mm
          else mm)
        m1)
    []

def pfOfSets (inner : List (String × Finset String × Finset String)) (st : String) : PF :=
  match alookup inner st with
  | some s => ⟨s.1.card, s.2.card⟩
  | none => ⟨0, 0⟩

/-- Lexicographic comparison used to sort `test_flow_rows` by
`(ts_sort_key(ts), sku)`. -/
def tfRowLe (a b : TestFlowRow) : Bool :=
  let ka := ts_sort_key a.ts
  let kb := ts_sort_key b.ts
  decide (ka.1 < kb.1) ||
    (decide (ka.1 = kb.1) &&
      (decide (ka.2 < kb.2) || (decide (ka.2 = kb.2) && decide (a.sku ≤ b.sku))))

/-- `sku_rows.sort(key=lambda x: (-x["tested"], x["sku"]))`. -/
def skuRowLe (a b : SkuRow) : Bool :=
  decide (b.tested < a.tested) || (decide (a.tested = b.tested) && decide (a.sku ≤ b.sku))

/-- Key of the `(period, SN)` bucketing loop for breakdown rows (blank SNs and
missing timestamps are skipped). -/
def breakdownKey (aggregation : String) (r : Row) : Option String :=
  if snKeyOf r = "" then none
  else
    match r.test_time_dt with
    | none => none
    | some dt =>
      match row_to_ca_date (some dt) with
      | none => none
      | some d => some (date_to_period d aggregation)

/-- `_empty_result`. -/
def empty_result (cfg : Config) : AggResult where
  summary := ⟨0, 0, 0⟩
  tray_summary := ⟨⟨0, 0, 0⟩, ⟨0, 0, 0⟩, ⟨0, 0, 0⟩⟩
  sku_rows := []
  breakdown_rows := []
  test_flow :=
    { stations := cfg.stations_order
      totals := cfg.stations_order.map fun st => (st, ⟨0, 0⟩)
      rows := [] }
  rows := []
  sn_tests := []
  sn_pass := []
  sn_is_bp := []
  sn_latest_part := []
  sn_latest_dt := []

/-- `compute_all(rows, aggregation)`: the full analytics aggregation.  The
bonepile SN set and the configuration are explicit parameters (the source
reads them from process-wide caches). -/
def compute_all (cfg : Config) (bp_sn_set : List String) (rows0 : List Row)
    (aggregation : String) : AggResult :=
  if rows0.isEmpty then empty_result cfg
  else
    let rows := add_bp_to_rows bp_sn_set rows0
    let sn_tests := groupByKey snGroupKey rows
    let sn_is_bp : List (String × Bool) :=
      sn_tests.map fun p => (p.1, p.2.any fun r => r.is_bonepile.getD false)
    let sn_pass : List (String × Bool) :=
      sn_tests.map fun p => (p.1, is_sn_passed cfg p.2)
    let latest := sn_tests.map fun p => (p.1, latestPartAndDt p.2)
    let sn_latest_part : List (String × String) := latest.map fun p => (p.1, p.2.1)
    let sn_latest_dt : List (String × Option Nat) := latest.map fun p => (p.1, p.2.2)
    let tested_total := sn_tests.length
    let pass_total := (sn_pass.filter fun p => p.2).length
    let fail_total := tested_total - pass_total
    let tested_bp := (sn_is_bp.filter fun p => p.2).length
    let tested_fresh := tested_total - tested_bp
    let pass_bp := ((keysOf sn_tests).filter fun sn =>
      ((alookup sn_is_bp sn).getD false) && ((alookup sn_pass sn).getD false)).length
    let pass_fresh := pass_total - pass_bp
    let fail_bp := tested_bp - pass_bp
    let fail_fresh := tested_fresh - pass_fresh
    let sku_groups := groupByKey (fun sn => some (skuOfSn sn_latest_part sn)) (keysOf sn_tests)
    let sku_rows := isortBy skuRowLe <| sku_groups.map fun p =>
      { sku := p.1
        tested := p.2.length
        pass := (p.2.filter fun sn => (alookup sn_pass sn).getD false).length
        fail := (p.2.filter fun sn => !((alookup sn_pass sn).getD false)).length }
    let buckets := groupByKey (breakdownKey aggregation) rows
    let breakdown_rows := isortBy (fun a b => decide (a.period ≤ b.period)) <|
      buckets.map fun b =>
        let sn_map := groupByKey snGroupKey b.2
        let tested := sn_map.length
        let passed := (sn_map.filter fun p => is_sn_passed cfg p.2).length
        let bp := (sn_map.filter fun p => p.2.any fun t => t.is_bonepile.getD false).length
        { period := b.1
          tested := tested
          passed := passed
          bonepile := bp
          fresh := tested - bp
          pass_rate := if tested = 0 then 0 else (passed : ℚ) / (tested : ℚ) }
    let stations := cfg.stations_order
    let total_sets := tfTotalSets stations sn_tests
    let sku_sets := tfSkuSets stations sn_tests sn_latest_part
    let totals : List (String × PF) := stations.map fun st => (st, pfOfSets total_sets st)
    let test_flow_rows := isortBy tfRowLe <|
      (isortBy (fun a b => decide (a ≤ b)) (keysOf sku_sets)).map fun sku =>
        { ts := ts_group_from_part_number (some sku)
          sku := sku
          stations := stations.map fun st =>
            (st, pfOfSets ((alookup sku_sets sku).getD (tfInit stations)) st) }
    { summary := ⟨tested_total, pass_total, fail_total⟩
      tray_summary :=
        { tested := ⟨tested_bp, tested_fresh, tested_total⟩
          pass := ⟨pass_bp, pass_fresh, pass_total⟩
          fail := ⟨fail_bp, fail_fresh, fail_total⟩ }
      sku_rows := sku_rows
      breakdown_rows := breakdown_rows
      test_flow := { stations := stations, totals := totals, rows := test_flow_rows }
      rows := rows
      sn_tests := sn_tests
      sn_pass := sn_pass
      sn_is_bp := sn_is_bp
      sn_latest_part := sn_latest_part
      sn_latest_dt := sn_latest_dt }

/-! ## Aggregate drill-down (`analytics/sn_list.py`) -/

/-- One display row of the SN-list drill-down. -/
structure SnItem where
  sn : String
  part_number : String
  status : String
  last_station : String
  last_test_time : String
  is_bonepile : Bool
  last_failure_msg : String
deriving DecidableEq, Inhabited

/-- The `sn_latest_row` accumulation at the top of `compute_sn_list`: the
row with the greatest timestamp per SN (first row wins when no later
timestamped row appears). -/
def snLatestRow (rows : List Row) : List (String × Row) :=
  rows.foldl
    (fun m r =>
      let sn := snKeyOf r
      if sn = "" then m
      else
        match alookup m sn with
        | none => m ++ [(sn, r)]
        | some existing =>
          match r.test_time_dt, existing.test_time_dt with
          | some _, none => updAssoc m sn fun _ => r
          | some dt, some ex => if dt > ex then updAssoc m sn (fun _ => r) else m
          | none, _ => m)
    []

/-- `get_last_failure_msg`: latest FAIL message for the SN, optionally at the
given station (`max` keeps the first row attaining the maximal timestamp;
a missing timestamp reads as `datetime.min`, i.e. `0`). -/
def get_last_failure_msg (sn_tests : List (String × List Row)) (station : Option String)
    (sn : String) : String :=
  let tests := (alookup sn_tests sn).getD []
  let fail_rows := tests.filter fun r => pyNorm r.result = "FAIL"
  let fail_rows :=
    if pyTruthy station then
      fail_rows.filter fun r => pyNorm r.station = pyNorm station
    else fail_rows
  match fail_rows with
  | [] => ""
  | first :: rest =>
    let latest := rest.foldl
      (fun best r => if (r.test_time_dt.getD 0) > (best.test_time_dt.getD 0) then r else best)
      first
    pyStrip (latest.failure_msg.getD "")

/-- `make_sn_item`. -/
def make_sn_item (computed : AggResult) (latest_rows : List (String × Row))
    (station : Option String) (sn : String) : SnItem :=
  let latest := (alookup latest_rows sn).getD {}
  { sn := sn
    part_number := skuOfSn computed.sn_latest_part sn
    status := if (alookup computed.sn_pass sn).getD false then "PASS" else "FAIL"
    last_station := pyStrip (latest.station.getD "")
    last_test_time := pyStrip (latest.test_time.getD "")
    is_bonepile := (alookup computed.sn_is_bp sn).getD false
    last_failure_msg := get_last_failure_msg computed.sn_tests station sn }

/-- `compute_sn_list(computed, metric, sku, period, station, outcome,
aggregation)`: reconstruct the SN list behind a metric from the cached result. -/
def compute_sn_list (computed : AggResult) (metric : String)
    (sku : Option String := none) (period : Option String := none)
    (station : Option String := none) (outcome : Option String := none)
    (aggregation : String := "daily") : List SnItem :=
  let sn_tests := computed.sn_tests
  let sn_pass := computed.sn_pass
  let sn_is_bp := computed.sn_is_bp
  let sn_latest_part := computed.sn_latest_part
  let latest_rows := snLatestRow computed.rows
  let candidates : List String :=
    if metric = "total" ∨ metric = "tested" then keysOf sn_tests
    else if metric = "pass" then
      (keysOf sn_tests).filter fun sn => (alookup sn_pass sn).getD false
    else if metric = "fail" then
      (keysOf sn_tests).filter fun sn => !((alookup sn_pass sn).getD false)
    else if metric = "test_flow" then keysOf sn_tests
    else []
  let candidates :=
    if pyStartsWith metric "tray_" then
      let parts := pySplitChar '_' metric
      if parts.length ≥ 3 then
        let seg := parts.getD 1 ""
        let bp_seg := parts.getD 2 ""
        let c1 :=
          if seg = "tested" then keysOf sn_tests
          else if seg = "pass" then
            (keysOf sn_tests).filter fun sn => (alookup sn_pass sn).getD false
          else if seg = "fail" then
            (keysOf sn_tests).filter fun sn => !((alookup sn_pass sn).getD false)
          else []
        if bp_seg = "bp" then c1.filter fun sn => (alookup sn_is_bp sn).getD false
        else if bp_seg = "fresh" then c1.filter fun sn => !((alookup sn_is_bp sn).getD false)
        else c1
      else candidates
    else candidates
  let candidates :=
    if pyTruthy sku ∧ sku.getD "" ≠ "__TOTAL__" then
      candidates.filter fun sn => skuOfSn sn_latest_part sn = sku.getD ""
    else candidates
  let candidates :=
    if pyTruthy period ∧ period.getD "" ≠ "__TOTAL__" then
      candidates.filter fun sn =>
        ((alookup sn_tests sn).getD []).any fun r =>
          match r.test_time_dt with
          | none => false
          | some dt =>
            match row_to_ca_date (some dt) with
            | none => false
            | some d => date_to_period d aggregation = period.getD ""
    else candidates
  let candidates :=
    if metric = "breakdown_bonepile" then
      candidates.filter fun sn => (alookup sn_is_bp sn).getD false
    else if metric = "breakdown_fresh" then
      candidates.filter fun sn => !((alookup sn_is_bp sn).getD false)
    else candidates
  let candidates :=
    if pyTruthy station ∧ pyTruthy outcome then
      let st := pyNorm station
      let want_pf := if outcome.getD "" = "pass" then "P" else "F"
      let c := candidates.filter fun sn =>
        ((alookup sn_tests sn).getD []).any fun r =>
          decide (pyNorm r.station = st) &&
            ((decide (want_pf = "P") && decide (pyNorm r.result = "PASS")) ||
             (decide (want_pf = "F") && decide (pyNorm r.result = "FAIL")))
      if pyTruthy sku ∧ sku.getD "" ≠ "__TOTAL__" then
        c.filter fun sn => skuOfSn sn_latest_part sn = sku.getD ""
      else c
    else candidates
  (isortBy (fun a b => decide (a ≤ b)) candidates).map
    (make_sn_item computed latest_rows station)

/-! ## Error statistics (`analytics/error_stats.py`) -/

/-- Python `str.lower()` (ASCII). -/
def pyLower (s : String) : String :=
  ⟨s.data.map Char.toLower⟩

/-- Python `round(q, 1)` (used for `pct_fail_events`). -/
def pyRound1 (q : ℚ) : ℚ :=
  let x : ℚ := q * 10
  let f : Int := ⌊x⌋
  let r : ℚ := x - (f : ℚ)
  let n : Int :=
    if r < 1/2 then f
    else if 1/2 < r then f + 1
    else if f % 2 = 0 then f else f + 1
  (n : ℚ) / 10

/-- `_station_group`: strip a leading `R_` remote prefix from the normalised
station name. -/
def station_group (station : String) : String :=
  let st := pyNorm (some station)
  if pyStartsWith st "R_" && decide (2 < pyLen st) then ⟨st.data.drop 2⟩ else st

/-- `_error_key`: error code if present, else a stable key from the
`failure_msg` prefix (hashing long prefixes). -/
def error_key (row : Row) : String :=
  let ec := pyStrip (row.error_code.getD "")
  if ec ≠ "" then pyUpper (pyStrip ec)
  else
    let msg := pyStrip (row.failure_msg.getD "")
    if msg = "" then "_NO_MSG"
    else
      let pref := pyStrip (pyTake msg 80)
      if pyLen pref < 20 then (if pref = "" then "_EMPTY" else pref)
      else "msg_" ++ pyTake (sha256Hex pref) 16

/-- `normalize_rows` applied to one row: copy it and attach `station_group`
and `error_key`. -/
def normalizeRow (r : Row) : Row :=
  { r with
    station_group := some (station_group (r.station.getD ""))
    error_key := some (error_key r) }

/-- `normalize_rows`. -/
def normalize_rows (rows : List Row) : List Row :=
  rows.map normalizeRow

def isFailRowNorm (r : Row) : Bool := pyNorm r.result = "FAIL"

def isPassRowNorm (r : Row) : Bool := pyNorm r.result = "PASS"

/-- Key of the `(tray_sn, station_group)` PASS index (blank SN or empty
station group skipped). -/
def passKeyOf (r : Row) : Option (String × String) :=
  let sn := snKeyOf r
  let sg := r.station_group.getD ""
  if sn = "" ∨ sg = "" then none else some (sn, sg)

/-- The PASS index of `infer_clear_times`: PASS rows grouped by
`(tray_sn, station_group)`, each group sorted ascending by
`test_time_dt or datetime.min`. -/
def passIndex (norm : List Row) : List ((String × String) × List Row) :=
  (groupByKey passKeyOf (norm.filter isPassRowNorm)).map fun p =>
    (p.1, isortBy (fun a b => decide ((a.test_time_dt.getD 0) ≤ (b.test_time_dt.getD 0))) p.2)

/-- The body of the FAIL-resolution loop for one FAIL row: `open=True`,
`clear_time=None`, `ttc_minutes=None` by default; the first indexed PASS with
a timestamp strictly greater than the fail time clears it. -/
def resolveFail (idx : List ((String × String) × List Row)) (r : Row) : Row :=
  let sn := snKeyOf r
  let sg := r.station_group.getD ""
  let base : Row :=
    { r with row_open := some true, clear_time := some none, ttc_minutes := some none }
  match r.test_time_dt with
  | none => base
  | some t =>
    if sn = "" ∨ sg = "" then base
    else
      match ((alookup idx (sn, sg)).getD []).find?
          (fun p => match p.test_time_dt with
                    | some pt => decide (pt > t)
                    | none => false) with
      | some p =>
        match p.test_time_dt with
        | some pt =>
          { base with
            clear_time := some (some pt)
            row_open := some false
            ttc_minutes := some (some (pyRound2 (((pt : ℚ) - (t : ℚ)) / 60))) }
        | none => base
      | none => base

/-- `infer_clear_times`: normalise the rows and resolve each FAIL row against
the next later PASS at the same `(SN, station_group)`.  The source mutates the
FAIL dicts of the normalised list in place; non-FAIL rows are untouched, so the
result is the normalised list with each FAIL row replaced by its resolution. -/
def infer_clear_times (rows : List Row) : List Row :=
  let norm := normalize_rows rows
  let idx := passIndex norm
  norm.map fun r => if isFailRowNorm r then resolveFail idx r else r

/-- `_station_sort_key` as a comparison: `STATIONS_ORDER` first (by index),
then the unknown stations alphabetically. -/
def stationSortLe (cfg : Config) (a b : String) : Bool :=
  match cfg.stations_order.indexOf? a, cfg.stations_order.indexOf? b with
  | some i, some j => decide (i ≤ j)
  | some _, none => true
  | none, some _ => false
  | none, none => decide (a ≤ b)

structure FailByStation where
  station_group : String
  fail_events : Nat
  unique_tray : Nat
  pct_fail_events : ℚ
deriving DecidableEq, Inhabited

/-- The distinct non-blank SNs of a list of rows (a Python `set`). -/
def traysOf (rows : List Row) : Finset String :=
  rows.foldl (fun s r => let sn := snKeyOf r; if sn = "" then s else insert sn s) ∅

/-- `compute_fail_summary_by_station` (table A). -/
def compute_fail_summary_by_station (cfg : Config) (fail_rows : List Row) :
    List FailByStation :=
  let by_st := groupByKey
    (fun r => let sg := r.station_group.getD ""; if sg = "" then none else some sg) fail_rows
  let total := (by_st.map fun p => p.2.length).sum
  (isortBy (stationSortLe cfg) (keysOf by_st)).map fun sg =>
    let rows := (alookup by_st sg).getD []
    { station_group := sg
      fail_events := rows.length
      unique_tray := (traysOf rows).card
      pct_fail_events :=
        if total = 0 then 0 else pyRound1 (100 * (rows.length : ℚ) / (total : ℚ)) }

structure TopError where
  error_code : String
  representative_error_message : String
  fail_events : Nat
  unique_tray : Nat
  top_station_group : String
deriving DecidableEq, Inhabited

/-- `max(d, key=d.get)`: the first key attaining the maximal count,
in insertion order. -/
def maxKeyByCount (m : List (String × Nat)) : String :=
  match m with
  | [] => ""
  | h :: t => (t.foldl (fun best p => if p.2 > best.2 then p else best) h).1

/-- Count occurrences in encounter order (a Python counter dict). -/
def countsOf (l : List String) : List (String × Nat) :=
  (groupByKey (fun s => some s) l).map fun p => (p.1, p.2.length)

/-- `ek = r.get("error_key") or "_UNK"`. -/
def ekOf (r : Row) : String :=
  let e := r.error_key.getD ""
  if e = "" then "_UNK" else e

/-- `compute_top_k_errors` (table B): group by error key, rank by
`(fail_events desc, unique_tray desc)`, truncate to `top_k`. -/
def compute_top_k_errors (fail_rows : List Row) (top_k : Nat) : List TopError :=
  let by_err := groupByKey (fun r => some (ekOf r)) fail_rows
  let rows := by_err.map fun p =>
    let msgs := (p.2.map fun r =>
      let m1 := pyStrip (r.failure_msg.getD "")
      if m1 = "" then r.error_code.getD "" else m1).filter fun m => m ≠ ""
    let st_counts := countsOf (p.2.map fun r => r.station_group.getD "")
    { error_code := p.1
      representative_error_message := maxKeyByCount (countsOf msgs)
      fail_events := p.2.length
      unique_tray := (traysOf p.2).card
      top_station_group := maxKeyByCount st_counts }
  (isortBy
    (fun a b =>
      decide (b.fail_events < a.fail_events) ||
        (decide (a.fail_events = b.fail_events) && decide (b.unique_tray ≤ a.unique_tray)))
    rows).take top_k

structure MatrixRow where
  station_group : String
  cells : List (String × Nat)
deriving DecidableEq, Inhabited

/-- `compute_station_error_matrix` (table C). -/
def compute_station_error_matrix (cfg : Config) (fail_rows : List Row)
    (top_k_errors : List TopError) : List MatrixRow × List String :=
  let top_codes := top_k_errors.map (·.error_code)
  let stations_set : Finset String :=
    fail_rows.foldl
      (fun s r => let sg := r.station_group.getD ""; if sg = "" then s else insert sg s) ∅
  let ordered := isortBy (stationSortLe cfg)
    (cfg.stations_order.filter fun s => s ∈ stations_set)
  let others := (stations_set.sort (· ≤ ·)).filter fun s => s ∉ cfg.stations_order
  let all_stations := ordered ++ others
  (all_stations.map fun sg =>
    { station_group := sg
      cells := top_codes.map fun ek =>
        (ek, (fail_rows.filter fun r =>
          decide (r.station_group.getD "" = sg) && decide (r.station_group.getD "" ≠ "") &&
            decide (r.error_key.getD "" = ek)).length) },
   top_codes)

structure Hotspot where
  station_instance : String
  station_group : String
  fail_events : Nat
  unique_tray : Nat
  top_error_code : String
deriving DecidableEq, Inhabited

/-- `compute_station_instance_hotspots` (table D): empty unless some row has a
non-blank `station_instance`. -/
def compute_station_instance_hotspots (fail_rows : List Row) : List Hotspot :=
  if fail_rows.any (fun r => pyStrip (r.station_instance.getD "") ≠ "") then
    let by_inst := groupByKey
      (fun r =>
        let si := pyStrip (r.station_instance.getD "")
        if si = "" then none else some si)
      fail_rows
    isortBy (fun a b => decide (b.fail_events ≤ a.fail_events)) <| by_inst.map fun p =>
      let err_counts := countsOf ((p.2.map fun r => r.error_key.getD "").filter fun e => e ≠ "")
      { station_instance := p.1
        station_group := (p.2.headD {}).station_group.getD ""
        fail_events := p.2.length
        unique_tray := (traysOf p.2).card
        top_error_code := maxKeyByCount err_counts }
  else []

/-- `_ttc_bucket`: four-bucket histogram label with configurable thresholds. -/
def ttcBucket (cfg : Config) (minutes : ℚ) : String :=
  let b0 := cfg.ttc_buckets.getD 0 5
  let b1 := cfg.ttc_buckets.getD 1 15
  let b2 := cfg.ttc_buckets.getD 2 60
  if minutes ≤ (b0 : ℚ) then "<=5m"
  else if minutes ≤ (b1 : ℚ) then "5-15m"
  else if minutes ≤ (b2 : ℚ) then "15-60m"
  else ">60m"

/-- `statistics.median` (call sites guard against the empty list). -/
def pymedian (l : List ℚ) : ℚ :=
  let s := isortBy (fun a b => decide (a ≤ b)) l
  let n := s.length
  if n % 2 = 1 then s.getD (n / 2) 0
  else (s.getD (n / 2 - 1) 0 + s.getD (n / 2) 0) / 2

/-- `statistics.mean`. -/
def pymean (l : List ℚ) : ℚ := l.sum / (l.length : ℚ)

/-- Python `max` over a non-empty list (first maximum kept). -/
def pymax (l : List ℚ) : ℚ :=
  match l with
  | [] => 0
  | h :: t => t.foldl (fun a b => if b > a then b else a) h

structure TtcOverall where
  resolved_fail_events : Nat
  open_fail_events : Nat
  open_unique_trays : Nat
  median_ttc_minutes : Option ℚ
  mean_ttc_minutes : Option ℚ
  p90_ttc_minutes : Option ℚ
  bucket_leq5m : Nat
  bucket_5_15m : Nat
  bucket_15_60m : Nat
  bucket_gt60m : Nat
deriving DecidableEq, Inhabited

/-- `compute_ttc_overall` (table E). -/
def compute_ttc_overall (cfg : Config) (resolved_rows open_rows : List Row) : TtcOverall :=
  let ttc_vals := resolved_rows.filterMap Row.ttcVal
  let n := ttc_vals.length
  { resolved_fail_events := resolved_rows.length
    open_fail_events := open_rows.length
    open_unique_trays := (traysOf open_rows).card
    median_ttc_minutes := if ttc_vals.isEmpty then none else some (pyRound2 (pymedian ttc_vals))
    mean_ttc_minutes := if ttc_vals.isEmpty then none else some (pyRound2 (pymean ttc_vals))
    p90_ttc_minutes :=
      if ttc_vals.isEmpty then none
      else
        let idx : Int := min (pyTrunc ((n : ℚ) * cfg.p90)) ((n : Int) - 1)
        some (pyRound2 ((isortBy (fun a b => decide (a ≤ b)) ttc_vals).getD idx.toNat 0))
    bucket_leq5m := (ttc_vals.filter fun m => ttcBucket cfg m = "<=5m").length
    bucket_5_15m := (ttc_vals.filter fun m => ttcBucket cfg m = "5-15m").length
    bucket_15_60m := (ttc_vals.filter fun m => ttcBucket cfg m = "15-60m").length
    bucket_gt60m := (ttc_vals.filter fun m => ttcBucket cfg m = ">60m").length }

structure TtcByStation where
  station_group : String
  resolved_count : Nat
  open_count : Nat
  median_ttc : Option ℚ
  mean_ttc : Option ℚ
  max_ttc : Option ℚ
  total_ttc_minutes : ℚ
deriving DecidableEq, Inhabited

/-- `compute_ttc_by_station` (table F). -/
def compute_ttc_by_station (cfg : Config) (resolved_rows open_rows : List Row) :
    List TtcByStation :=
  let by_st := groupByKey
    (fun r => let sg := r.station_group.getD ""; if sg = "" then none else some sg)
    (resolved_rows ++ open_rows)
  let stations_set : Finset String := (keysOf by_st).foldl (fun s sg => insert sg s) ∅
  let ordered := isortBy (stationSortLe cfg)
    (cfg.stations_order.filter fun s => s ∈ stations_set)
  let others := (stations_set.sort (· ≤ ·)).filter fun s => s ∉ cfg.stations_order
  (ordered ++ others).map fun sg =>
    let rows := (alookup by_st sg).getD []
    let ttc_vals := (rows.filter fun r => r.ttcVal.isSome).map fun r => r.ttcVal.getD 0
    let open_rows := rows.filter Row.openVal
    { station_group := sg
      resolved_count := ttc_vals.length
      open_count := (traysOf open_rows).card
      median_ttc := if ttc_vals.isEmpty then none else some (pyRound2 (pymedian ttc_vals))
      mean_ttc := if ttc_vals.isEmpty then none else some (pyRound2 (pymean ttc_vals))
      max_ttc := if ttc_vals.isEmpty then none else some (pyRound2 (pymax ttc_vals))
      total_ttc_minutes := pyRound2 ttc_vals.sum }

structure TtcByError where
  error_code : String
  resolved_count : Nat
  median_ttc : Option ℚ
  total_ttc_minutes : ℚ
deriving DecidableEq, Inhabited

/-- `compute_ttc_by_error` (table G). -/
def compute_ttc_by_error (resolved_rows : List Row) (top_k_errors : List TopError) :
    List TtcByError :=
  let top_codes := top_k_errors.map (·.error_code)
  let by_err := groupByKey
    (fun r =>
      let ek := r.error_key.getD ""
      if top_codes.contains ek then some ek else none)
    resolved_rows
  top_k_errors.map fun e =>
    let rows := (alookup by_err e.error_code).getD []
    let ttc_vals := (rows.filter fun r => r.ttcVal.isSome).map fun r => r.ttcVal.getD 0
    { error_code := e.error_code
      resolved_count := ttc_vals.length
      median_ttc := if ttc_vals.isEmpty then none else some (pyRound2 (pymedian ttc_vals))
      total_ttc_minutes := pyRound2 ttc_vals.sum }

/-- The full result of `compute_error_stats`, including the `_fail_rows` /
`_top_k` internal fields needed by the drill-down resolver. -/
structure ErrorStatsResult where
  fail_by_station : List FailByStation
  top_k_errors : List TopError
  station_error_matrix : List MatrixRow
  station_error_matrix_cols : List String
  station_instance_hotspots : List Hotspot
  ttc_overall : TtcOverall
  ttc_by_station : List TtcByStation
  ttc_by_error : List TtcByError
  fail_rows : List Row
  top_k : Nat
deriving DecidableEq, Inhabited

/-- The pure tail of `compute_error_stats`, starting from the normalised and
fail-resolved rows (tables A–G plus internal fields). -/
def assembleErrorStats (cfg : Config) (norm : List Row) (top_k : Nat) : ErrorStatsResult :=
  let fail_rows := norm.filter isFailRowNorm
  let resolved := fail_rows.filter fun r => !r.openVal && r.ttcVal.isSome
  let open_fails := fail_rows.filter Row.openVal
  let top_k_errors := compute_top_k_errors fail_rows top_k
  let matrix := compute_station_error_matrix cfg fail_rows top_k_errors
  { fail_by_station := compute_fail_summary_by_station cfg fail_rows
    top_k_errors := top_k_errors
    station_error_matrix := matrix.1
    station_error_matrix_cols := matrix.2
    station_instance_hotspots := compute_station_instance_hotspots fail_rows
    ttc_overall := compute_ttc_overall cfg resolved open_fails
    ttc_by_station := compute_ttc_by_station cfg resolved open_fails
    ttc_by_error := compute_ttc_by_error resolved top_k_errors
    fail_rows := fail_rows
    top_k := top_k }

/-- `compute_error_stats(rows, top_k)`: the value computed for the caller. -/
def compute_error_stats (cfg : Config) (rows : List Row) (top_k : Nat) : ErrorStatsResult :=
  assembleErrorStats cfg (infer_clear_times rows) top_k

/-! ## Error-stats drill-down (`compute_error_stats_sn_list`) -/

/-- One output record of the error-stats drill-down.  The full shape carries
`station_group`, `ttc_minutes` and `open`; the deduplicated unique-tray shape
omits them (outer `none` models an absent dict key).  The internal
`_test_time_dt` key is stripped from every returned shape. -/
structure EsRecord where
  sn : String
  part_number : String
  station : String
  error_code : String
  error_message : String
  test_time : String
  station_group : Option String := none
  ttc_minutes : Option (Option ℚ) := none
  row_open : Option (Option Bool) := none
deriving DecidableEq, Inhabited

/-- Truthiness of `(x or "").strip()`. -/
def pyTruthyStripped (s : Option String) : Bool :=
  !(pyStrip (s.getD "")).isEmpty

/-- The per-row filter of `compute_error_stats_sn_list` (the `continue`
conditions of each metric branch); an unrecognised metric matches nothing. -/
def esMatch (cfg : Config) (metric : String) (station_group error_code ttc_bucket
    station_instance : Option String) (r : Row) : Bool :=
  if metric = "fail_by_station" then
    !(pyTruthyStripped station_group) ||
      decide (r.station_group = some (pyNorm station_group))
  else if metric = "top_errors" then
    !(pyTruthyStripped error_code) || decide (r.error_key = some (pyNorm error_code))
  else if metric = "station_error" then
    (!(pyTruthyStripped station_group) ||
      decide (r.station_group = some (pyNorm station_group))) &&
    (!(pyTruthyStripped error_code) || decide (r.error_key = some (pyNorm error_code)))
  else if metric = "station_instance" then
    let si := pyStrip (r.station_instance.getD "")
    let want := pyStrip (station_instance.getD "")
    decide (want ≠ "") && decide (si = want)
  else if metric = "ttc_overall" then
    if pyTruthy ttc_bucket then
      if ttc_bucket.getD "" = "open" then r.openVal
      else if ttc_bucket.getD "" = "resolved" then !r.openVal && r.ttcVal.isSome
      else
        !r.openVal && r.ttcVal.isSome &&
          decide (ttcBucket cfg (r.ttcVal.getD 0) = ttc_bucket.getD "")
    else true
  else if metric = "ttc_by_station" then
    (!(pyTruthyStripped station_group) ||
      decide (r.station_group = some (pyNorm station_group))) &&
    !r.openVal && r.ttcVal.isSome
  else if metric = "ttc_by_station_open" then
    (!(pyTruthyStripped station_group) ||
      decide (r.station_group = some (pyNorm station_group))) &&
    r.openVal
  else if metric = "ttc_by_error" then
    (!(pyTruthyStripped error_code) || decide (r.error_key = some (pyNorm error_code))) &&
    !r.openVal && r.ttcVal.isSome
  else false

/-- The full-shape output record of a matched FAIL row, paired with the
internal `_test_time_dt` value. -/
def esItemOf (r : Row) : EsRecord × Option Nat :=
  ({ sn := snKeyOf r
     part_number := pyStrip (r.part_number.getD "")
     station := pyStrip (r.station.getD "")
     station_group := some (r.station_group.getD "")
     error_code := r.error_key.getD ""
     error_message := pyStrip (r.failure_msg.getD "")
     test_time := pyStrip (r.test_time.getD "")
     ttc_minutes := some r.ttcVal
     row_open := some r.row_open },
   r.test_time_dt)

/-- The unique-tray deduplication: one record per non-blank SN, keeping the
record with the chronologically latest `_test_time_dt` (missing reads as
`datetime.min`), output in first-encounter order, reduced to the six-field
shape. -/
def esUniqueBySn (out : List (EsRecord × Option Nat)) : List EsRecord :=
  let by_sn := out.foldl
    (fun m p =>
      let sn := p.1.sn
      if sn = "" then m
      else
        match alookup m sn with
        | none => m ++ [(sn, p)]
        | some existing =>
          match p.2 with
          | none => m
          | some dt => if (existing.2.getD 0) < dt then updAssoc m sn (fun _ => p) else m)
    []
  by_sn.map fun q =>
    { sn := q.2.1.sn
      part_number := q.2.1.part_number
      station := q.2.1.station
      error_code := q.2.1.error_code
      error_message := q.2.1.error_message
      test_time := q.2.1.test_time }

/-- `compute_error_stats_sn_list(result, metric, ...)`: the FAIL records behind
an error-stats cell, with optional unique-tray deduplication. -/
def compute_error_stats_sn_list (cfg : Config) (result : ErrorStatsResult) (metric : String)
    (station_group : Option String := none) (error_code : Option String := none)
    (ttc_bucket : Option String := none) (station_instance : Option String := none)
    (drill_type : Option String := none) : List EsRecord :=
  let out := (result.fail_rows.filter
    (esMatch cfg metric station_group error_code ttc_bucket station_instance)).map esItemOf
  let unique_trays := pyLower (pyStrip (drill_type.getD "")) = "unique_trays"
  if unique_trays &&
      (metric = "fail_by_station" || metric = "top_errors" || metric = "station_instance") &&
      !out.isEmpty then
    esUniqueBySn out
  else if ((metric = "ttc_overall" && decide (ttc_bucket = some "open")) ||
        metric = "ttc_by_station_open") &&
      !out.isEmpty then
    esUniqueBySn out
  else
    out.map Prod.fst

/-! ## Heap model of the error-stats path (for the frame property)

The caller's row dicts live on a heap (a list of `Row` indexed by addresses);
`normalize_rows` allocates fresh copies (`dict(r)`) at the end of the heap, and
`infer_clear_times` writes only to those fresh FAIL-row addresses. -/

/-- `normalize_rows` over the heap: fresh normalised copies are appended, the
returned addresses point at them. -/
def normalizeRowsH (h : List Row) (addrs : List Nat) : List Row × List Nat :=
  (h ++ addrs.map fun a => normalizeRow (h.getD a {}), List.range' h.length addrs.length)

/-- `infer_clear_times` over the heap: the in-place FAIL-row mutations become
`List.set` at the fresh addresses.  The PASS index is read from the normalised
heap; FAIL-row writes never touch PASS rows (a row is PASS xor FAIL), so
reading it up front matches the source's in-place loop. -/
def inferClearTimesH (h : List Row) (addrs : List Nat) : List Row × List Nat :=
  let h1 := (normalizeRowsH h addrs).1
  let naddrs := (normalizeRowsH h addrs).2
  let failAddrs := naddrs.filter fun a => isFailRowNorm (h1.getD a {})
  let idx := passIndex (naddrs.map fun a => h1.getD a {})
  (failAddrs.foldl (fun hh a => hh.set a (resolveFail idx (hh.getD a {}))) h1, naddrs)

/-- `compute_error_stats` over the heap: resolve clear times in place, then
assemble the tables (pure reads). -/
def computeErrorStatsH (cfg : Config) (h : List Row) (addrs : List Nat) (top_k : Nat) :
    List Row × ErrorStatsResult :=
  let r := inferClearTimesH h addrs
  (r.1, assembleErrorStats cfg (r.2.map fun a => r.1.getD a {}) top_k)

/-! ## Claim proofs -/

/-- The bonepile/fresh/total arithmetic of `tray_summary`, abstract over the
key list and the per-SN pass and bonepile predicates. -/
theorem tray_partition_arith (K : List String) (P B : String → Bool) :
    let tt := K.length
    let pt := (K.filter P).length
    let tb := (K.filter B).length
    let pb := (K.filter fun s => B s && P s).length
    tb + (tt - tb) = tt ∧ pb + (pt - pb) = pt ∧
      (tb - pb) + ((tt - tb) - (pt - pb)) = tt - pt := by
  intro tt pt tb pb
  have h1 := length_filter_partition K P B
  have h2 := length_filter_partition K B P
  have h3 := length_filter_true_partition K B
  have h4 := length_filter_partition K (fun s => !B s) P
  have hc1 : (K.filter fun s => P s && B s).length = pb := by
    rw [List.filter_congr (fun s _ => ?_)]
    exact Bool.and_comm (P s) (B s)
  have hc2 : (K.filter fun s => P s && !B s).length =
      (K.filter fun s => !B s && P s).length := by
    rw [List.filter_congr (fun s _ => ?_)]
    exact Bool.and_comm (P s) (!B s)
  omega

/-- Keys of the internal maps of `compute_all` coincide with the SN-group keys. -/
theorem counts_over_keys (m : List (String × Bool)) (hnd : (keysOf m).Nodup) :
    (m.filter fun p => p.2).length =
      ((keysOf m).filter fun k => (alookup m k).getD false).length := by
  have h := assoc_filter_length m (fun k => (alookup m k).getD false)
    (fun p hp => by
      show p.2 = (alookup m p.1).getD false
      rw [alookup_of_mem_nodup m p hp hnd]
      rfl) (fun b => b)
  simpa using h

/-- C5: for every input row list, each level of the tray summary returned by
`compute_all` satisfies `bp + fresh = total`. -/
theorem C5_tray_bp_fresh_partition (cfg : Config) (bp_sn_set : List String)
    (rows : List Row) (aggregation : String) :
    let t := (compute_all cfg bp_sn_set rows aggregation).tray_summary
    (t.tested.bp + t.tested.fresh = t.tested.total) ∧
      (t.pass.bp + t.pass.fresh = t.pass.total) ∧
      (t.fail.bp + t.fail.fresh = t.fail.total) := by
  intro t
  by_cases h : rows.isEmpty
  · simp [t, compute_all, h, empty_result]
  · rw [show t = (compute_all cfg bp_sn_set rows aggregation).tray_summary from rfl]
    simp only [compute_all, h, Bool.false_eq_true, if_false]
    set rows2 := add_bp_to_rows bp_sn_set rows with hrows2
    set sn_tests := groupByKey snGroupKey rows2 with hsn_tests
    have hnd : (keysOf sn_tests).Nodup := nodup_keys_groupByKey _ _
    set sn_is_bp : List (String × Bool) :=
      sn_tests.map fun p => (p.1, p.2.any fun r => r.is_bonepile.getD false) with hbpm
    set sn_pass : List (String × Bool) :=
      sn_tests.map fun p => (p.1, is_sn_passed cfg p.2) with hpassm
    have hkbp : keysOf sn_is_bp = keysOf sn_tests :=
      keysOf_map_snd sn_tests fun v => v.any fun r => r.is_bonepile.getD false
    have hkpass : keysOf sn_pass = keysOf sn_tests :=
      keysOf_map_snd sn_tests fun v => is_sn_passed cfg v
    set K := keysOf sn_tests with hK
    set LB : String → Bool := fun sn => (alookup sn_is_bp sn).getD false with hLB
    set LP : String → Bool := fun sn => (alookup sn_pass sn).getD false with hLP
    have e2 : (sn_pass.filter fun p => p.2).length = (K.filter LP).length := by
      rw [counts_over_keys sn_pass (hkpass ▸ hnd), hkpass]
    have e3 : (sn_is_bp.filter fun p => p.2).length = (K.filter LB).length := by
      rw [counts_over_keys sn_is_bp (hkbp ▸ hnd), hkbp]
    have e1 : sn_tests.length = K.length := (List.length_map _ _).symm
    have harith := tray_partition_arith K LP LB
    simp only at harith
    obtain ⟨ha1, ha2, ha3⟩ := harith
    have e4 : (K.filter fun sn =>
        (alookup sn_is_bp sn).getD false && (alookup sn_pass sn).getD false).length =
        (K.filter fun s => LB s && LP s).length := rfl
    refine ⟨?_, ?_, ?_⟩ <;> simp only [e1, e2, e3, e4] <;> omega

/-- The lengths of tray drill-down lists, one lemma per metric: the sorting and
display mapping of `compute_sn_list` preserve the candidate count. -/
theorem drillLen_tested_bp (computed : AggResult) (agg : String) :
    (compute_sn_list computed "tray_tested_bp" none none none none agg).length =
      (((keysOf computed.sn_tests).filter (fun sn => (alookup computed.sn_is_bp sn).getD false))).length := by
  rw [show compute_sn_list computed "tray_tested_bp" none none none none agg =
      (isortBy (fun a b => decide (a ≤ b)) ((keysOf computed.sn_tests).filter (fun sn => (alookup computed.sn_is_bp sn).getD false))).map
        (make_sn_item computed (snLatestRow computed.rows) none) from rfl,
    List.length_map, length_isortBy]

theorem drillLen_tested_fresh (computed : AggResult) (agg : String) :
    (compute_sn_list computed "tray_tested_fresh" none none none none agg).length =
      (((keysOf computed.sn_tests).filter (fun sn => !((alookup computed.sn_is_bp sn).getD false)))).length := by
  rw [show compute_sn_list computed "tray_tested_fresh" none none none none agg =
      (isortBy (fun a b => decide (a ≤ b)) ((keysOf computed.sn_tests).filter (fun sn => !((alookup computed.sn_is_bp sn).getD false)))).map
        (make_sn_item computed (snLatestRow computed.rows) none) from rfl,
    List.length_map, length_isortBy]

theorem drillLen_tested_total (computed : AggResult) (agg : String) :
    (compute_sn_list computed "tray_tested_total" none none none none agg).length =
      ((keysOf computed.sn_tests)).length := by
  rw [show compute_sn_list computed "tray_tested_total" none none none none agg =
      (isortBy (fun a b => decide (a ≤ b)) (keysOf computed.sn_tests)).map
        (make_sn_item computed (snLatestRow computed.rows) none) from rfl,
    List.length_map, length_isortBy]

theorem drillLen_pass_bp (computed : AggResult) (agg : String) :
    (compute_sn_list computed "tray_pass_bp" none none none none agg).length =
      ((((keysOf computed.sn_tests).filter fun sn => (alookup computed.sn_pass sn).getD false).filter (fun sn => (alookup computed.sn_is_bp sn).getD false))).length := by
  rw [show compute_sn_list computed "tray_pass_bp" none none none none agg =
      (isortBy (fun a b => decide (a ≤ b)) (((keysOf computed.sn_tests).filter fun sn => (alookup computed.sn_pass sn).getD false).filter (fun sn => (alookup computed.sn_is_bp sn).getD false))).map
        (make_sn_item computed (snLatestRow computed.rows) none) from rfl,
    List.length_map, length_isortBy]

theorem drillLen_pass_fresh (computed : AggResult) (agg : String) :
    (compute_sn_list computed "tray_pass_fresh" none none none none agg).length =
      ((((keysOf computed.sn_tests).filter fun sn => (alookup computed.sn_pass sn).getD false).filter (fun sn => !((alookup computed.sn_is_bp sn).getD false)))).length := by
  rw [show compute_sn_list computed "tray_pass_fresh" none none none none agg =
      (isortBy (fun a b => decide (a ≤ b)) (((keysOf computed.sn_tests).filter fun sn => (alookup computed.sn_pass sn).getD false).filter (fun sn => !((alookup computed.sn_is_bp sn).getD false)))).map
        (make_sn_item computed (snLatestRow computed.rows) none) from rfl,
    List.length_map, length_isortBy]

theorem drillLen_pass_total (computed : AggResult) (agg : String) :
    (compute_sn_list computed "tray_pass_total" none none none none agg).length =
      (((keysOf computed.sn_tests).filter fun sn => (alookup computed.sn_pass sn).getD false)).length := by
  rw [show compute_sn_list computed "tray_pass_total" none none none none agg =
      (isortBy (fun a b => decide (a ≤ b)) ((keysOf computed.sn_tests).filter fun sn => (alookup computed.sn_pass sn).getD false)).map
        (make_sn_item computed (snLatestRow computed.rows) none) from rfl,
    List.length_map, length_isortBy]

theorem drillLen_fail_bp (computed : AggResult) (agg : String) :
    (compute_sn_list computed "tray_fail_bp" none none none none agg).length =
      ((((keysOf computed.sn_tests).filter fun sn => !((alookup computed.sn_pass sn).getD false)).filter (fun sn => (alookup computed.sn_is_bp sn).getD false))).length := by
  rw [show compute_sn_list computed "tray_fail_bp" none none none none agg =
      (isortBy (fun a b => decide (a ≤ b)) (((keysOf computed.sn_tests).filter fun sn => !((alookup computed.sn_pass sn).getD false)).filter (fun sn => (alookup computed.sn_is_bp sn).getD false))).map
        (make_sn_item computed (snLatestRow computed.rows) none) from rfl,
    List.length_map, length_isortBy]

theorem drillLen_fail_fresh (computed : AggResult) (agg : String) :
    (compute_sn_list computed "tray_fail_fresh" none none none none agg).length =
      ((((keysOf computed.sn_tests).filter fun sn => !((alookup computed.sn_pass sn).getD false)).filter (fun sn => !((alookup computed.sn_is_bp sn).getD false)))).length := by
  rw [show compute_sn_list computed "tray_fail_fresh" none none none none agg =
      (isortBy (fun a b => decide (a ≤ b)) (((keysOf computed.sn_tests).filter fun sn => !((alookup computed.sn_pass sn).getD false)).filter (fun sn => !((alookup computed.sn_is_bp sn).getD false)))).map
        (make_sn_item computed (snLatestRow computed.rows) none) from rfl,
    List.length_map, length_isortBy]

theorem drillLen_fail_total (computed : AggResult) (agg : String) :
    (compute_sn_list computed "tray_fail_total" none none none none agg).length =
      (((keysOf computed.sn_tests).filter fun sn => !((alookup computed.sn_pass sn).getD false))).length := by
  rw [show compute_sn_list computed "tray_fail_total" none none none none agg =
      (isortBy (fun a b => decide (a ≤ b)) ((keysOf computed.sn_tests).filter fun sn => !((alookup computed.sn_pass sn).getD false))).map
        (make_sn_item computed (snLatestRow computed.rows) none) from rfl,
    List.length_map, length_isortBy]

/-- The remaining tray-cell identities, abstract over the key list and the
per-SN pass/bonepile predicates. -/
theorem tray_cells_arith (K : List String) (P B : String → Bool) :
    K.length - (K.filter fun s => B s).length = (K.filter fun s => !B s).length ∧
    (K.filter fun s => P s).length - (K.filter fun s => B s && P s).length =
      (K.filter fun s => !B s && P s).length ∧
    K.length - (K.filter fun s => P s).length = (K.filter fun s => !P s).length ∧
    (K.filter fun s => B s).length - (K.filter fun s => B s && P s).length =
      (K.filter fun s => B s && !P s).length ∧
    (K.length - (K.filter fun s => B s).length) -
        ((K.filter fun s => P s).length - (K.filter fun s => B s && P s).length) =
      (K.filter fun s => !B s && !P s).length := by
  have pA := length_filter_partition K (fun s => P s) (fun s => B s)
  have pB := length_filter_partition K (fun s => B s) (fun s => P s)
  have pC := length_filter_true_partition K (fun s => B s)
  have pD := length_filter_partition K (fun s => !B s) (fun s => P s)
  have pE := length_filter_true_partition K (fun s => P s)
  have pF := length_filter_true_partition K (fun s => !B s)
  have cm1 : (K.filter fun s => P s && B s).length = (K.filter fun s => B s && P s).length := by
    rw [List.filter_congr fun s _ => Bool.and_comm (P s) (B s)]
  have cm2 : (K.filter fun s => P s && !B s).length =
      (K.filter fun s => !B s && P s).length := by
    rw [List.filter_congr fun s _ => Bool.and_comm (P s) (!B s)]
  have cm3 : (K.filter fun s => B s && !P s).length ≤ (K.filter fun s => B s).length := by
    rw [pB]; omega
  have cm4 : (K.filter fun s => !B s && !P s).length +
      (K.filter fun s => !B s && P s).length = (K.filter fun s => !B s).length := by
    have := length_filter_partition K (fun s => !B s) (fun s => !P s)
    have hcongr : (K.filter fun s => !B s && !(!P s)).length =
        (K.filter fun s => !B s && P s).length := by
      apply congrArg List.length
      apply List.filter_congr
      intro s _
      cases P s <;> rfl
    omega
  refine ⟨by omega, by omega, by omega, by omega, by omega⟩

/-- C1: every tray-summary cell of `compute_all` equals the length of the
corresponding `tray_<seg>_<bpseg>` drill-down list with no filters. -/
theorem C1_tray_drilldown_consistency (cfg : Config) (bp_sn_set : List String)
    (rows : List Row) (agg : String) :
    let res := compute_all cfg bp_sn_set rows agg
    (res.tray_summary.tested.total =
        (compute_sn_list res "tray_tested_total" none none none none agg).length) ∧
    (res.tray_summary.tested.bp =
        (compute_sn_list res "tray_tested_bp" none none none none agg).length) ∧
    (res.tray_summary.tested.fresh =
        (compute_sn_list res "tray_tested_fresh" none none none none agg).length) ∧
    (res.tray_summary.pass.total =
        (compute_sn_list res "tray_pass_total" none none none none agg).length) ∧
    (res.tray_summary.pass.bp =
        (compute_sn_list res "tray_pass_bp" none none none none agg).length) ∧
    (res.tray_summary.pass.fresh =
        (compute_sn_list res "tray_pass_fresh" none none none none agg).length) ∧
    (res.tray_summary.fail.total =
        (compute_sn_list res "tray_fail_total" none none none none agg).length) ∧
    (res.tray_summary.fail.bp =
        (compute_sn_list res "tray_fail_bp" none none none none agg).length) ∧
    (res.tray_summary.fail.fresh =
        (compute_sn_list res "tray_fail_fresh" none none none none agg).length) := by
  intro res
  have hres : res = compute_all cfg bp_sn_set rows agg := rfl
  by_cases h : rows.isEmpty
  · have hempty : res = empty_result cfg := by
      rw [hres]
      simp [compute_all, h]
    rw [drillLen_tested_total, drillLen_tested_bp, drillLen_tested_fresh,
      drillLen_pass_total, drillLen_pass_bp, drillLen_pass_fresh,
      drillLen_fail_total, drillLen_fail_bp, drillLen_fail_fresh, hempty]
    simp [empty_result, keysOf]
  · have hnd : (keysOf (groupByKey snGroupKey (add_bp_to_rows bp_sn_set rows))).Nodup := nodup_keys_groupByKey _ _
    have cTT : (groupByKey snGroupKey (add_bp_to_rows bp_sn_set rows)).length = (keysOf (groupByKey snGroupKey (add_bp_to_rows bp_sn_set rows))).length := (List.length_map _ _).symm
    have cPT : (((groupByKey snGroupKey (add_bp_to_rows bp_sn_set rows)).map fun p => (p.1, is_sn_passed cfg p.2)).filter fun p => p.2).length =
        ((keysOf (groupByKey snGroupKey (add_bp_to_rows bp_sn_set rows))).filter (fun s => (alookup ((groupByKey snGroupKey (add_bp_to_rows bp_sn_set rows)).map fun p => (p.1, is_sn_passed cfg p.2)) s).getD false)).length := by
      rw [counts_over_keys ((groupByKey snGroupKey (add_bp_to_rows bp_sn_set rows)).map fun p => (p.1, is_sn_passed cfg p.2))
        (by rw [keysOf_map_snd (groupByKey snGroupKey (add_bp_to_rows bp_sn_set rows)) fun v => is_sn_passed cfg v]; exact hnd)]
      rw [keysOf_map_snd (groupByKey snGroupKey (add_bp_to_rows bp_sn_set rows)) fun v => is_sn_passed cfg v]
    have cTB : (((groupByKey snGroupKey (add_bp_to_rows bp_sn_set rows)).map fun p => (p.1, p.2.any fun r => r.is_bonepile.getD false)).filter fun p => p.2).length =
        ((keysOf (groupByKey snGroupKey (add_bp_to_rows bp_sn_set rows))).filter (fun s => (alookup ((groupByKey snGroupKey (add_bp_to_rows bp_sn_set rows)).map fun p => (p.1, p.2.any fun r => r.is_bonepile.getD false)) s).getD false)).length := by
      rw [counts_over_keys ((groupByKey snGroupKey (add_bp_to_rows bp_sn_set rows)).map fun p => (p.1, p.2.any fun r => r.is_bonepile.getD false))
        (by rw [keysOf_map_snd (groupByKey snGroupKey (add_bp_to_rows bp_sn_set rows)) fun v => v.any fun r => r.is_bonepile.getD false]; exact hnd)]
      rw [keysOf_map_snd (groupByKey snGroupKey (add_bp_to_rows bp_sn_set rows)) fun v => v.any fun r => r.is_bonepile.getD false]
    have harith := tray_cells_arith (keysOf (groupByKey snGroupKey (add_bp_to_rows bp_sn_set rows)))
      (fun s => (alookup ((groupByKey snGroupKey (add_bp_to_rows bp_sn_set rows)).map fun p => (p.1, is_sn_passed cfg p.2)) s).getD false)
      (fun s => (alookup ((groupByKey snGroupKey (add_bp_to_rows bp_sn_set rows)).map fun p => (p.1, p.2.any fun r => r.is_bonepile.getD false)) s).getD false)
    replace harith :
        (keysOf (groupByKey snGroupKey (add_bp_to_rows bp_sn_set rows))).length - ((keysOf (groupByKey snGroupKey (add_bp_to_rows bp_sn_set rows))).filter (fun s => (alookup ((groupByKey snGroupKey (add_bp_to_rows bp_sn_set rows)).map fun p => (p.1, p.2.any fun r => r.is_bonepile.getD false)) s).getD false)).length =
          ((keysOf (groupByKey snGroupKey (add_bp_to_rows bp_sn_set rows))).filter (fun s => !((alookup ((groupByKey snGroupKey (add_bp_to_rows bp_sn_set rows)).map fun p => (p.1, p.2.any fun r => r.is_bonepile.getD false)) s).getD false))).length ∧
        ((keysOf (groupByKey snGroupKey (add_bp_to_rows bp_sn_set rows))).filter (fun s => (alookup ((groupByKey snGroupKey (add_bp_to_rows bp_sn_set rows)).map fun p => (p.1, is_sn_passed cfg p.2)) s).getD false)).length -
            ((keysOf (groupByKey snGroupKey (add_bp_to_rows bp_sn_set rows))).filter (fun s => ((alookup ((groupByKey snGroupKey (add_bp_to_rows bp_sn_set rows)).map fun p => (p.1, p.2.any fun r => r.is_bonepile.getD false)) s).getD false) && ((alookup ((groupByKey snGroupKey (add_bp_to_rows bp_sn_set rows)).map fun p => (p.1, is_sn_passed cfg p.2)) s).getD false))).length =
          ((keysOf (groupByKey snGroupKey (add_bp_to_rows bp_sn_set rows))).filter (fun s => (!((alookup ((groupByKey snGroupKey (add_bp_to_rows bp_sn_set rows)).map fun p => (p.1, p.2.any fun r => r.is_bonepile.getD false)) s).getD false)) && ((alookup ((groupByKey snGroupKey (add_bp_to_rows bp_sn_set rows)).map fun p => (p.1, is_sn_passed cfg p.2)) s).getD false))).length ∧
        (keysOf (groupByKey snGroupKey (add_bp_to_rows bp_sn_set rows))).length - ((keysOf (groupByKey snGroupKey (add_bp_to_rows bp_sn_set rows))).filter (fun s => (alookup ((groupByKey snGroupKey (add_bp_to_rows bp_sn_set rows)).map fun p => (p.1, is_sn_passed cfg p.2)) s).getD false)).length =
          ((keysOf (groupByKey snGroupKey (add_bp_to_rows bp_sn_set rows))).filter (fun s => !((alookup ((groupByKey snGroupKey (add_bp_to_rows bp_sn_set rows)).map fun p => (p.1, is_sn_passed cfg p.2)) s).getD false))).length ∧
        ((keysOf (groupByKey snGroupKey (add_bp_to_rows bp_sn_set rows))).filter (fun s => (alookup ((groupByKey snGroupKey (add_bp_to_rows bp_sn_set rows)).map fun p => (p.1, p.2.any fun r => r.is_bonepile.getD false)) s).getD false)).length -
            ((keysOf (groupByKey snGroupKey (add_bp_to_rows bp_sn_set rows))).filter (fun s => ((alookup ((groupByKey snGroupKey (add_bp_to_rows bp_sn_set rows)).map fun p => (p.1, p.2.any fun r => r.is_bonepile.getD false)) s).getD false) && ((alookup ((groupByKey snGroupKey (add_bp_to_rows bp_sn_set rows)).map fun p => (p.1, is_sn_passed cfg p.2)) s).getD false))).length =
          ((keysOf (groupByKey snGroupKey (add_bp_to_rows bp_sn_set rows))).filter (fun s => ((alookup ((groupByKey snGroupKey (add_bp_to_rows bp_sn_set rows)).map fun p => (p.1, p.2.any fun r => r.is_bonepile.getD false)) s).getD false) && !((alookup ((groupByKey snGroupKey (add_bp_to_rows bp_sn_set rows)).map fun p => (p.1, is_sn_passed cfg p.2)) s).getD false))).length ∧
        ((keysOf (groupByKey snGroupKey (add_bp_to_rows bp_sn_set rows))).length - ((keysOf (groupByKey snGroupKey (add_bp_to_rows bp_sn_set rows))).filter (fun s => (alookup ((groupByKey snGroupKey (add_bp_to_rows bp_sn_set rows)).map fun p => (p.1, p.2.any fun r => r.is_bonepile.getD false)) s).getD false)).length) -
            (((keysOf (groupByKey snGroupKey (add_bp_to_rows bp_sn_set rows))).filter (fun s => (alookup ((groupByKey snGroupKey (add_bp_to_rows bp_sn_set rows)).map fun p => (p.1, is_sn_passed cfg p.2)) s).getD false)).length -
              ((keysOf (groupByKey snGroupKey (add_bp_to_rows bp_sn_set rows))).filter (fun s => ((alookup ((groupByKey snGroupKey (add_bp_to_rows bp_sn_set rows)).map fun p => (p.1, p.2.any fun r => r.is_bonepile.getD false)) s).getD false) && ((alookup ((groupByKey snGroupKey (add_bp_to_rows bp_sn_set rows)).map fun p => (p.1, is_sn_passed cfg p.2)) s).getD false))).length) =
          ((keysOf (groupByKey snGroupKey (add_bp_to_rows bp_sn_set rows))).filter (fun s => (!((alookup ((groupByKey snGroupKey (add_bp_to_rows bp_sn_set rows)).map fun p => (p.1, p.2.any fun r => r.is_bonepile.getD false)) s).getD false)) && !((alookup ((groupByKey snGroupKey (add_bp_to_rows bp_sn_set rows)).map fun p => (p.1, is_sn_passed cfg p.2)) s).getD false))).length := harith
    obtain ⟨ar1, ar2, ar3, ar4, ar5⟩ := harith
    rw [drillLen_tested_total, drillLen_tested_bp, drillLen_tested_fresh,
      drillLen_pass_total, drillLen_pass_bp, drillLen_pass_fresh,
      drillLen_fail_total, drillLen_fail_bp, drillLen_fail_fresh, hres]
    simp only [compute_all, h, Bool.false_eq_true, if_false, List.filter_filter]
    refine ⟨?_, ?_, ?_, ?_, ?_, ?_, ?_, ?_, ?_⟩ <;> first
    | trivial
    | omega

/-- `any` over a list is invariant under permutation. -/
theorem any_perm {α : Type} {l l' : List α} (h : l.Perm l') (p : α → Bool) :
    l.any p = l'.any p := by
  rw [Bool.eq_iff_iff]
  simp only [List.any_eq_true]
  exact ⟨fun ⟨x, hx, hp⟩ => ⟨x, h.mem_iff.mp hx, hp⟩,
    fun ⟨x, hx, hp⟩ => ⟨x, h.mem_iff.mpr hx, hp⟩⟩

/-- Permuting the grouped sequence permutes the group keys. -/
theorem keys_groupByKey_perm {κ ε : Type} [DecidableEq κ] (kf : ε → Option κ)
    {l l' : List ε} (h : l.Perm l') :
    (keysOf (groupByKey kf l)).Perm (keysOf (groupByKey kf l')) := by
  rw [List.perm_ext_iff_of_nodup (nodup_keys_groupByKey kf l) (nodup_keys_groupByKey kf l')]
  intro k
  rw [mem_keys_groupByKey, mem_keys_groupByKey]
  exact ⟨fun ⟨x, hx, hk⟩ => ⟨x, h.mem_iff.mp hx, hk⟩,
    fun ⟨x, hx, hk⟩ => ⟨x, h.mem_iff.mpr hx, hk⟩⟩

/-- Looking up a per-group derived value gives the derivation applied to the
filtered group. -/
theorem lookup_derived {β : Type} (f : List Row → β) (d : β) (rows2 : List Row) (sn : String)
    (hsn : sn ∈ keysOf (groupByKey snGroupKey rows2)) :
    (alookup ((groupByKey snGroupKey rows2).map fun p => (p.1, f p.2)) sn).getD d =
      f (rows2.filter fun r => snGroupKey r = some sn) := by
  rw [alookup_map_snd, alookup_groupByKey_of_mem _ _ _ hsn]
  rfl

/-- The pass count of `compute_all` as a count over group keys of the
per-group pass resolution. -/
theorem pass_count_semantic (cfg : Config) (rows2 : List Row) :
    (((groupByKey snGroupKey rows2).map fun p =>
        (p.1, is_sn_passed cfg p.2)).filter fun p => p.2).length =
      ((keysOf (groupByKey snGroupKey rows2)).filter fun sn =>
        is_sn_passed cfg (rows2.filter fun r => snGroupKey r = some sn)).length := by
  rw [counts_over_keys _ (by
    rw [keysOf_map_snd _ fun v => is_sn_passed cfg v]
    exact nodup_keys_groupByKey _ _)]
  rw [keysOf_map_snd _ fun v => is_sn_passed cfg v]
  exact congrArg List.length (List.filter_congr fun sn hsn => by
    rw [lookup_derived (fun v => is_sn_passed cfg v) false _ sn hsn])

/-- C4: `is_sn_passed` and the `compute_all` summary (total/pass/fail counts)
are invariant under permutation of the input rows. -/
theorem C4_permutation_invariance (cfg : Config) (bp_sn_set : List String) (agg : String)
    (rows rows' : List Row) (hperm : rows.Perm rows') :
    is_sn_passed cfg rows = is_sn_passed cfg rows' ∧
      (compute_all cfg bp_sn_set rows agg).summary =
        (compute_all cfg bp_sn_set rows' agg).summary := by
  constructor
  · exact any_perm hperm _
  · by_cases h : rows.isEmpty
    · have h2 : rows'.isEmpty := by
        rw [List.isEmpty_iff] at h ⊢
        rw [h] at hperm
        exact hperm.symm.eq_nil
      simp [compute_all, h, h2]
    · have h2 : ¬rows'.isEmpty := by
        rw [List.isEmpty_iff] at h ⊢
        intro he
        rw [he] at hperm
        exact h hperm.eq_nil
      have hperm2 : (add_bp_to_rows bp_sn_set rows).Perm (add_bp_to_rows bp_sn_set rows') :=
        hperm.map _
      have hK := keys_groupByKey_perm snGroupKey hperm2
      have hpred : ∀ sn,
          is_sn_passed cfg ((add_bp_to_rows bp_sn_set rows).filter
            fun r => snGroupKey r = some sn) =
          is_sn_passed cfg ((add_bp_to_rows bp_sn_set rows').filter
            fun r => snGroupKey r = some sn) := by
        intro sn
        exact any_perm (hperm2.filter _) _
      have hPT :
          (((groupByKey snGroupKey (add_bp_to_rows bp_sn_set rows)).map
              fun p => (p.1, is_sn_passed cfg p.2)).filter fun p => p.2).length =
          (((groupByKey snGroupKey (add_bp_to_rows bp_sn_set rows')).map
              fun p => (p.1, is_sn_passed cfg p.2)).filter fun p => p.2).length := by
        rw [pass_count_semantic, pass_count_semantic]
        rw [List.filter_congr fun sn _ => hpred sn]
        exact (hK.filter _).length_eq
      have hTT :
          (groupByKey snGroupKey (add_bp_to_rows bp_sn_set rows)).length =
          (groupByKey snGroupKey (add_bp_to_rows bp_sn_set rows')).length := by
        have hlen := hK.length_eq
        simpa [keysOf] using hlen
      simp only [compute_all, h, h2, Bool.false_eq_true, if_false]
      rw [Summary.mk.injEq]
      exact ⟨hTT, hPT, by rw [hTT, hPT]⟩

/-- C4 witness: a concrete two-row list and its swap. -/
theorem C4_permutation_invariance_witness :
    is_sn_passed defaultConfig
        [{ serial_number := some "A", result := some "FAIL" },
         { serial_number := some "A", part_number := some "675-24109-0010-TS2",
           station := some "FCT", result := some "PASS" }] =
      is_sn_passed defaultConfig
        [{ serial_number := some "A", part_number := some "675-24109-0010-TS2",
           station := some "FCT", result := some "PASS" },
         { serial_number := some "A", result := some "FAIL" }] ∧
    (compute_all defaultConfig []
        [{ serial_number := some "A", result := some "FAIL" },
         { serial_number := some "A", part_number := some "675-24109-0010-TS2",
           station := some "FCT", result := some "PASS" }] "daily").summary =
      (compute_all defaultConfig []
        [{ serial_number := some "A", part_number := some "675-24109-0010-TS2",
           station := some "FCT", result := some "PASS" },
         { serial_number := some "A", result := some "FAIL" }] "daily").summary :=
  C4_permutation_invariance defaultConfig [] "daily" _ _
    (List.Perm.swap _ _ [])

/-- `_error_key` of a row without an error code, written out. -/
theorem error_key_eq_of_no_code (r : Row) (h : pyStrip (r.error_code.getD "") = "") :
    error_key r =
      (let msg := pyStrip (r.failure_msg.getD "")
       if msg = "" then "_NO_MSG"
       else
         let pref := pyStrip (pyTake msg 80)
         if pyLen pref < 20 then (if pref = "" then "_EMPTY" else pref)
         else "msg_" ++ pyTake (sha256Hex pref) 16) := by
  rw [error_key]
  simp [h]

/-- Taking the first 80 characters preserves emptiness. -/
theorem pyTake80_empty_iff (s : String) : pyTake s 80 = "" ↔ s = "" := by
  constructor
  · intro h
    have hd : s.data.take 80 = [] := congrArg String.data h
    have hnil : s.data = [] := by
      rcases List.take_eq_nil_iff.mp hd with h80 | hnil
      · exact absurd h80 (by decide)
      · exact hnil
    cases s with
    | mk d =>
      show String.mk d = String.mk []
      exact congrArg String.mk (by simpa using hnil)
  · intro h
    rw [h]
    rfl

/-- C6 counterexample: two rows without `error_code` whose raw `failure_msg`
values agree on the first 80 characters (79 spaces then `a`) but whose
`error_key`s differ, because the code strips the message *before* slicing. -/
theorem C6_error_key_prefix_counterexample :
    (({ failure_msg := some ⟨List.replicate 79 ' ' ++ ['a', 'b']⟩ } : Row).error_code.getD ""
        = "") ∧
    (({ failure_msg := some ⟨List.replicate 79 ' ' ++ ['a', 'c']⟩ } : Row).error_code.getD ""
        = "") ∧
    pyTake (({ failure_msg := some ⟨List.replicate 79 ' ' ++ ['a', 'b']⟩ } : Row).failure_msg.getD "") 80 =
      pyTake (({ failure_msg := some ⟨List.replicate 79 ' ' ++ ['a', 'c']⟩ } : Row).failure_msg.getD "") 80 ∧
    error_key ({ failure_msg := some ⟨List.replicate 79 ' ' ++ ['a', 'b']⟩ } : Row) ≠
      error_key ({ failure_msg := some ⟨List.replicate 79 ' ' ++ ['a', 'c']⟩ } : Row) := by
  refine ⟨rfl, rfl, by decide, by decide⟩

/-- C6 (amended): for two rows without `error_code` whose *stripped*
`failure_msg` values agree on the first 80 characters, the error keys are
equal; in particular stripped messages differing only after the 80th
character yield the same key. -/
theorem C6_error_key_prefix_amended (r1 r2 : Row)
    (h1 : pyStrip (r1.error_code.getD "") = "")
    (h2 : pyStrip (r2.error_code.getD "") = "")
    (h : pyTake (pyStrip (r1.failure_msg.getD "")) 80 =
         pyTake (pyStrip (r2.failure_msg.getD "")) 80) :
    error_key r1 = error_key r2 := by
  rw [error_key_eq_of_no_code r1 h1, error_key_eq_of_no_code r2 h2]
  simp only []
  have hemp : (pyStrip (r1.failure_msg.getD "") = "") ↔
      (pyStrip (r2.failure_msg.getD "") = "") := by
    rw [← pyTake80_empty_iff, ← pyTake80_empty_iff (pyStrip (r2.failure_msg.getD "")), h]
  by_cases he : pyStrip (r1.failure_msg.getD "") = ""
  · rw [if_pos he, if_pos (hemp.mp he)]
  · rw [if_neg he, if_neg (fun k => he (hemp.mpr k)), h]

/-- C6 witness: raw messages differing in surrounding whitespace only, with
equal stripped 80-character prefixes, get the same key. -/
theorem C6_error_key_prefix_amended_witness :
    pyStrip (({ failure_msg := some "ERR X" } : Row).error_code.getD "") = "" ∧
    pyStrip (({ failure_msg := some "  ERR X  " } : Row).error_code.getD "") = "" ∧
    pyTake (pyStrip (({ failure_msg := some "ERR X" } : Row).failure_msg.getD "")) 80 =
      pyTake (pyStrip (({ failure_msg := some "  ERR X  " } : Row).failure_msg.getD "")) 80 ∧
    error_key ({ failure_msg := some "ERR X" } : Row) =
      error_key ({ failure_msg := some "  ERR X  " } : Row) :=
  ⟨by decide, by decide, by decide,
    C6_error_key_prefix_amended _ _ (by decide) (by decide) (by decide)⟩

/-- Lookup through one test-flow accumulation step. -/
theorem alookup_tfTotalStep (m : List (String × Finset String × Finset String))
    (q : String × Row) (st : String) :
    alookup (tfTotalStep m q) st =
      (alookup m st).map fun s =>
        if pyNorm q.2.station = st then
          if row_result_to_pf q.2.result = some "P" then (insert q.1 s.1, s.2)
          else if row_result_to_pf q.2.result = some "F" then (s.1, insert q.1 s.2)
          else s
        else s := by
  rw [tfTotalStep]
  by_cases hkey : pyNorm q.2.station ∈ keysOf m
  · rw [if_pos hkey]
    by_cases hpfP : row_result_to_pf q.2.result = some "P"
    · rw [if_pos hpfP]
      by_cases hst : pyNorm q.2.station = st
      · subst hst
        rw [alookup_updAssoc_self]
        cases alookup m (pyNorm q.2.station) with
        | none => rfl
        | some s => simp [hpfP]
      · rw [alookup_updAssoc_ne _ _ _ _ fun hh => hst hh.symm]
        cases alookup m st with
        | none => rfl
        | some s => simp [if_neg hst]
    · rw [if_neg hpfP]
      by_cases hpfF : row_result_to_pf q.2.result = some "F"
      · rw [if_pos hpfF]
        by_cases hst : pyNorm q.2.station = st
        · subst hst
          rw [alookup_updAssoc_self]
          cases alookup m (pyNorm q.2.station) with
          | none => rfl
          | some s => simp [hpfP, hpfF]
        · rw [alookup_updAssoc_ne _ _ _ _ fun hh => hst hh.symm]
          cases alookup m st with
          | none => rfl
          | some s => simp [if_neg hst]
      · rw [if_neg hpfF]
        cases alookup m st with
        | none => rfl
        | some s => simp [hpfP, hpfF]
  · rw [if_neg hkey]
    by_cases hst : pyNorm q.2.station = st
    · have hnone : alookup m st = none := by
        cases hl : alookup m st with
        | none => rfl
        | some v =>
          exact absurd ((mem_keysOf_iff_isSome m _).mpr (by rw [hst, hl]; rfl)) hkey
      rw [hnone]
      rfl
    · cases alookup m st with
      | none => rfl
      | some s => simp [if_neg hst]

/-- Membership characterisation of the test-flow accumulation fold. -/
theorem tfTotal_go (pairs : List (String × Row)) :
    ∀ (m : List (String × Finset String × Finset String)) (st sn : String)
      (P F : Finset String),
      alookup (pairs.foldl tfTotalStep m) st = some (P, F) →
      ∃ P0 F0, alookup m st = some (P0, F0) ∧
        (sn ∈ P ↔ sn ∈ P0 ∨ ∃ p ∈ pairs, p.1 = sn ∧ pyNorm p.2.station = st ∧
          row_result_to_pf p.2.result = some "P") ∧
        (sn ∈ F ↔ sn ∈ F0 ∨ ∃ p ∈ pairs, p.1 = sn ∧ pyNorm p.2.station = st ∧
          row_result_to_pf p.2.result = some "F") := by
  induction pairs with
  | nil =>
    intro m st sn P F h
    exact ⟨P, F, h, by simp, by simp⟩
  | cons q qs ih =>
    intro m st sn P F h
    rw [List.foldl_cons] at h
    obtain ⟨P1, F1, h1, hP1, hF1⟩ := ih (tfTotalStep m q) st sn P F h
    rw [alookup_tfTotalStep] at h1
    rcases hml : alookup m st with _ | v
    · rw [hml] at h1
      cases h1
    · obtain ⟨v1, v2⟩ := v
      rw [hml, Option.map_some'] at h1
      injection h1 with h1
      refine ⟨v1, v2, rfl, ?_, ?_⟩
      · rw [hP1, List.exists_mem_cons_iff]
        by_cases hst : pyNorm q.2.station = st
        · rw [if_pos hst] at h1
          by_cases hpf : row_result_to_pf q.2.result = some "P"
          · rw [if_pos hpf] at h1
            obtain ⟨hv1, _⟩ := Prod.mk.inj h1
            rw [← hv1]
            simp only [Finset.mem_insert]
            constructor
            · rintro ((rfl | hm) | hE)
              · exact Or.inr (Or.inl ⟨rfl, hst, hpf⟩)
              · exact Or.inl hm
              · exact Or.inr (Or.inr hE)
            · rintro (hm | (⟨rfl, -, -⟩ | hE))
              · exact Or.inl (Or.inr hm)
              · exact Or.inl (Or.inl rfl)
              · exact Or.inr hE
          · rw [if_neg hpf] at h1
            have hv1 : P1 = v1 := by
              by_cases hpf2 : row_result_to_pf q.2.result = some "F"
              · rw [if_pos hpf2] at h1
                exact (Prod.mk.inj h1).1.symm
              · rw [if_neg hpf2] at h1
                exact (Prod.mk.inj h1).1.symm
            rw [hv1]
            constructor
            · rintro (hm | hE)
              · exact Or.inl hm
              · exact Or.inr (Or.inr hE)
            · rintro (hm | (⟨-, -, hc⟩ | hE))
              · exact Or.inl hm
              · exact absurd hc hpf
              · exact Or.inr hE
        · rw [if_neg hst] at h1
          have hv1 : P1 = v1 := (Prod.mk.inj h1).1.symm
          rw [hv1]
          constructor
          · rintro (hm | hE)
            · exact Or.inl hm
            · exact Or.inr (Or.inr hE)
          · rintro (hm | (⟨-, hc, -⟩ | hE))
            · exact Or.inl hm
            · exact absurd hc hst
            · exact Or.inr hE
      · rw [hF1, List.exists_mem_cons_iff]
        by_cases hst : pyNorm q.2.station = st
        · rw [if_pos hst] at h1
          by_cases hpf : row_result_to_pf q.2.result = some "F"
          · have hpfP : ¬(row_result_to_pf q.2.result = some "P") := by
              rw [hpf]
              decide
            rw [if_neg hpfP, if_pos hpf] at h1
            obtain ⟨-, hv2⟩ := Prod.mk.inj h1
            rw [← hv2]
            simp only [Finset.mem_insert]
            constructor
            · rintro ((rfl | hm) | hE)
              · exact Or.inr (Or.inl ⟨rfl, hst, hpf⟩)
              · exact Or.inl hm
              · exact Or.inr (Or.inr hE)
            · rintro (hm | (⟨rfl, -, -⟩ | hE))
              · exact Or.inl (Or.inr hm)
              · exact Or.inl (Or.inl rfl)
              · exact Or.inr hE
          · have hv2 : F1 = v2 := by
              by_cases hpf2 : row_result_to_pf q.2.result = some "P"
              · rw [if_pos hpf2] at h1
                exact (Prod.mk.inj h1).2.symm
              · rw [if_neg hpf2, if_neg hpf] at h1
                exact (Prod.mk.inj h1).2.symm
            rw [hv2]
            constructor
            · rintro (hm | hE)
              · exact Or.inl hm
              · exact Or.inr (Or.inr hE)
            · rintro (hm | (⟨-, -, hc⟩ | hE))
              · exact Or.inl hm
              · exact absurd hc hpf
              · exact Or.inr hE
        · rw [if_neg hst] at h1
          have hv2 : F1 = v2 := (Prod.mk.inj h1).2.symm
          rw [hv2]
          constructor
          · rintro (hm | hE)
            · exact Or.inl hm
            · exact Or.inr (Or.inr hE)
          · rintro (hm | (⟨-, hc, -⟩ | hE))
            · exact Or.inl hm
            · exact absurd hc hst
            · exact Or.inr hE

theorem alookup_tfInit (stations : List String) (st : String) :
    alookup (tfInit stations) st =
      if st ∈ stations then some ((∅ : Finset String), (∅ : Finset String)) else none := by
  induction stations with
  | nil => simp [tfInit, alookup]
  | cons s ss ih =>
    by_cases h : s = st
    · subst h
      simp [tfInit, alookup]
    · simp only [tfInit, List.map_cons, alookup, h, if_neg, if_false, List.mem_cons]
      rw [tfInit] at ih
      rw [ih]
      by_cases hm : st ∈ ss
      · simp [hm]
      · simp [hm, Ne.symm h]

theorem pf_P_iff (r : Option String) : row_result_to_pf r = some "P" ↔ pyNorm r = "PASS" := by
  rw [row_result_to_pf]
  by_cases h1 : pyNorm r = "PASS"
  · simp [h1]
  · rw [if_neg h1]
    by_cases h2 : pyNorm r = "FAIL" <;> simp [h2, h1]

theorem pf_F_iff (r : Option String) : row_result_to_pf r = some "F" ↔ pyNorm r = "FAIL" := by
  rw [row_result_to_pf]
  by_cases h1 : pyNorm r = "PASS"
  · simp [h1]
  · rw [if_neg h1]
    by_cases h2 : pyNorm r = "FAIL" <;> simp [h2, h1]

/-- C7 (amended): in the test-flow accumulation of `compute_all`, an SN is in a
station's pass set iff one of its rows has that (normalised) station and a
result whose trimmed upper-casing is `"PASS"` — the match is `_norm`-normalised,
not exact — and likewise for the fail set with `"FAIL"`.  Set semantics make
repeat visits count once and let an SN sit in both sets. -/
theorem C7_test_flow_membership_amended (cfg : Config) (bp_sn_set : List String)
    (rows : List Row) (st sn : String) (P F : Finset String)
    (h : alookup (tfTotalSets cfg.stations_order
        (groupByKey snGroupKey (add_bp_to_rows bp_sn_set rows))) st = some (P, F)) :
    (sn ∈ P ↔ ∃ p ∈ tfPairs (groupByKey snGroupKey (add_bp_to_rows bp_sn_set rows)),
        p.1 = sn ∧ pyNorm p.2.station = st ∧ pyNorm p.2.result = "PASS") ∧
    (sn ∈ F ↔ ∃ p ∈ tfPairs (groupByKey snGroupKey (add_bp_to_rows bp_sn_set rows)),
        p.1 = sn ∧ pyNorm p.2.station = st ∧ pyNorm p.2.result = "FAIL") := by
  rw [tfTotalSets] at h
  obtain ⟨P0, F0, h0, hP, hF⟩ := tfTotal_go _ _ st sn P F h
  rw [alookup_tfInit] at h0
  have hPe : P0 = ∅ ∧ F0 = ∅ := by
    by_cases hm : st ∈ cfg.stations_order
    · rw [if_pos hm] at h0
      have := Prod.mk.inj (Option.some.inj h0)
      exact ⟨this.1.symm, this.2.symm⟩
    · rw [if_neg hm] at h0
      cases h0
  constructor
  · rw [hP, hPe.1]
    simp only [Finset.not_mem_empty, false_or]
    constructor
    · rintro ⟨p, hmem, h1, h2, h3⟩
      exact ⟨p, hmem, h1, h2, (pf_P_iff _).mp h3⟩
    · rintro ⟨p, hmem, h1, h2, h3⟩
      exact ⟨p, hmem, h1, h2, (pf_P_iff _).mpr h3⟩
  · rw [hF, hPe.2]
    simp only [Finset.not_mem_empty, false_or]
    constructor
    · rintro ⟨p, hmem, h1, h2, h3⟩
      exact ⟨p, hmem, h1, h2, (pf_F_iff _).mp h3⟩
    · rintro ⟨p, hmem, h1, h2, h3⟩
      exact ⟨p, hmem, h1, h2, (pf_F_iff _).mpr h3⟩

/-- C7 counterexample: a single row whose `result` is the lowercase string
`"pass"` (not the exact string `"PASS"`) nevertheless lands its SN in FCT's
pass set — `compute_all` reports one FCT pass — contradicting the claim that
only the exact string contributes. -/
theorem C7_exact_match_counterexample :
    ((some "pass" : Option String) ≠ some "PASS") ∧
      alookup (compute_all defaultConfig []
          [{ serial_number := some "A", station := some "FCT", result := some "pass" }]
          "daily").test_flow.totals "FCT" = some ⟨1, 0⟩ := by
  constructor
  · decide
  · decide

/-- C7 witness for the amended membership characterisation at a concrete row. -/
theorem C7_test_flow_membership_amended_witness :
    alookup (tfTotalSets defaultConfig.stations_order
        (groupByKey snGroupKey (add_bp_to_rows []
          [{ serial_number := some "A", station := some "FCT", result := some "pass" }])))
        "FCT" = some ({"A"}, (∅ : Finset String)) ∧
    (("A" ∈ ({"A"} : Finset String)) ↔
      ∃ p ∈ tfPairs (groupByKey snGroupKey (add_bp_to_rows []
          [{ serial_number := some "A", station := some "FCT", result := some "pass" }])),
        p.1 = "A" ∧ pyNorm p.2.station = "FCT" ∧ pyNorm p.2.result = "PASS") ∧
    (("A" ∈ (∅ : Finset String)) ↔
      ∃ p ∈ tfPairs (groupByKey snGroupKey (add_bp_to_rows []
          [{ serial_number := some "A", station := some "FCT", result := some "pass" }])),
        p.1 = "A" ∧ pyNorm p.2.station = "FCT" ∧ pyNorm p.2.result = "FAIL") :=
  ⟨by decide,
    (C7_test_flow_membership_amended defaultConfig []
      [{ serial_number := some "A", station := some "FCT", result := some "pass" }]
      "FCT" "A" {"A"} ∅ (by decide)).1,
    (C7_test_flow_membership_amended defaultConfig []
      [{ serial_number := some "A", station := some "FCT", result := some "pass" }]
      "FCT" "A" {"A"} ∅ (by decide)).2⟩

/-- The metrics `compute_sn_list` actually handles: the documented set, plus
the undocumented alias `tested`, plus any `tray_`-prefixed metric whose second
underscore component is `tested`/`pass`/`fail`. -/
def AggMetricHandled (metric : String) : Prop :=
  metric ∈ ["total", "tested", "pass", "fail", "test_flow",
    "breakdown_bonepile", "breakdown_fresh"] ∨
  (pyStartsWith metric "tray_" = true ∧ 3 ≤ (pySplitChar '_' metric).length ∧
    (pySplitChar '_' metric).getD 1 "" ∈ ["tested", "pass", "fail"])

instance (metric : String) : Decidable (AggMetricHandled metric) := by
  rw [AggMetricHandled]
  infer_instance

/-- The metric names `compute_error_stats_sn_list` handles. -/
def ErrMetricHandled (metric : String) : Prop :=
  metric ∈ ["fail_by_station", "top_errors", "station_error", "station_instance",
    "ttc_overall", "ttc_by_station", "ttc_by_station_open", "ttc_by_error"]

instance (metric : String) : Decidable (ErrMetricHandled metric) := by
  rw [ErrMetricHandled]
  infer_instance

/-- An unhandled metric matches no row in the error-stats drill-down filter. -/
theorem esMatch_false_of_unhandled (cfg : Config) (metric : String)
    (sg ec tb si : Option String) (r : Row) (h : ¬ErrMetricHandled metric) :
    esMatch cfg metric sg ec tb si r = false := by
  rw [ErrMetricHandled] at h
  simp only [List.mem_cons, List.not_mem_nil, or_false, not_or] at h
  obtain ⟨h1, h2, h3, h4, h5, h6, h7, h8⟩ := h
  rw [esMatch, if_neg h1, if_neg h2, if_neg h3, if_neg h4, if_neg h5, if_neg h6,
    if_neg h7, if_neg h8]

/-- C8 (amended): a metric outside the handled sets yields an empty drill-down
list from both resolvers, whatever the other filter arguments; for the
error-stats resolver the handled set is exactly the documented one, while
`compute_sn_list` additionally handles the alias `tested` and loosely-parsed
`tray_*` names. -/
theorem C8_unrecognized_metric_amended (cfg : Config) (computed : AggResult)
    (es : ErrorStatsResult) (metric : String)
    (sku period station outcome : Option String) (agg : String)
    (sg ec tb si dt : Option String) :
    (¬AggMetricHandled metric →
      compute_sn_list computed metric sku period station outcome agg = []) ∧
    (¬ErrMetricHandled metric →
      compute_error_stats_sn_list cfg es metric sg ec tb si dt = []) := by
  constructor
  · intro h
    rw [AggMetricHandled] at h
    simp only [List.mem_cons, List.not_mem_nil, or_false, not_or, not_and] at h
    obtain ⟨⟨h1, h2, h3, h4, h5, h6, h7⟩, htray⟩ := h
    by_cases hsw : pyStartsWith metric "tray_" = true
    · by_cases hlen : 3 ≤ (pySplitChar '_' metric).length
      · obtain ⟨hs1, hs2, hs3⟩ := htray hsw hlen
        simp only [List.getD_eq_getElem?_getD] at hs1 hs2 hs3
        simp [compute_sn_list, h1, h2, h3, h4, h5, h6, h7, hsw, hlen, hs1, hs2, hs3,
          ge_iff_le, isortBy]
      · simp [compute_sn_list, h1, h2, h3, h4, h5, h6, h7, hsw, hlen, ge_iff_le, isortBy]
    · simp [compute_sn_list, h1, h2, h3, h4, h5, h6, h7, hsw, isortBy]
  · intro h
    rw [compute_error_stats_sn_list]
    have hout : (es.fail_rows.filter (esMatch cfg metric sg ec tb si)).map esItemOf = [] := by
      rw [List.filter_congr fun r _ => esMatch_false_of_unhandled cfg metric sg ec tb si r h]
      rw [List.filter_false]
      rfl
    simp only [hout, List.isEmpty_nil, Bool.not_true, Bool.and_false, Bool.false_eq_true,
      if_false, List.map_nil]

/-- C8 counterexample: the metric string `"tested"` is outside the documented
closed set (`total`/`pass`/`fail`/`test_flow`/`tray_*`/`breakdown_*`), yet
`compute_sn_list` returns a non-empty list for it on a one-row computed
result, refuting the original claim that every metric outside the documented
set yields an empty list. -/
theorem C8_unrecognized_metric_counterexample :
    ("tested" ∉ (["total", "pass", "fail", "test_flow",
        "breakdown_bonepile", "breakdown_fresh"] : List String) ∧
      pyStartsWith "tested" "tray_" = false) ∧
    (compute_sn_list
        (compute_all defaultConfig []
          [{ serial_number := some "A", station := some "FCT",
             result := some "PASS", part_number := some "675-24109-0010-TS2",
             test_time_dt := some 0 }] "daily")
        "tested" none none none none "daily").length = 1 := by decide

/-- C8 witness: at the concrete unhandled metric `"bogus"` both resolvers
return the empty list. -/
theorem C8_unrecognized_metric_amended_witness :
    compute_sn_list (empty_result defaultConfig) "bogus" none none none none "daily" = [] ∧
    compute_error_stats_sn_list defaultConfig default "bogus" none none none none none = [] :=
  ⟨(C8_unrecognized_metric_amended defaultConfig (empty_result defaultConfig) default "bogus"
      none none none none "daily" none none none none none).1 (by decide),
    (C8_unrecognized_metric_amended defaultConfig (empty_result defaultConfig) default "bogus"
      none none none none "daily" none none none none none).2 (by decide)⟩

/-- C2: on a one-row input whose SN is in the bonepile set, the daily
breakdown table of `compute_all` reports `bonepile = 1` for period
`1970-01-01`, yet `compute_sn_list` with `metric = "breakdown_bonepile"` and
that period returns the empty list: the initial metric dispatch of
`compute_sn_list` leaves `candidates = []` for breakdown metrics, so the
later breakdown filter branches operate on the empty list and the documented
drill-down/aggregate consistency fails. -/
theorem C2_breakdown_drilldown_divergence :
    (compute_all defaultConfig ["A"]
        [{ serial_number := some "A", station := some "FCT",
           result := some "PASS", part_number := some "675-24109-0010-TS2",
           test_time_dt := some 0 }] "daily").breakdown_rows.map
        (fun b => (b.period, b.tested, b.bonepile, b.fresh)) =
      [("1970-01-01", 1, 1, 0)] ∧
    compute_sn_list
        (compute_all defaultConfig ["A"]
          [{ serial_number := some "A", station := some "FCT",
             result := some "PASS", part_number := some "675-24109-0010-TS2",
             test_time_dt := some 0 }] "daily")
        "breakdown_bonepile" none (some "1970-01-01") none none "daily" = [] := by decide

/-- `resolveFail` on a timestamped FAIL row with usable key, when the PASS
index search finds a clearing row: the three derived fields are set from the
clearing timestamp. -/
theorem resolveFail_clear (idx : List ((String × String) × List Row)) (r : Row) (t : Nat)
    (ht : r.test_time_dt = some t) (hsn : ¬snKeyOf r = "")
    (hsg : ¬r.station_group.getD "" = "") (p : Row) (pt : Nat)
    (hfind : ((alookup idx (snKeyOf r, r.station_group.getD "")).getD []).find?
        (fun q => match q.test_time_dt with
                  | some qt => decide (qt > t)
                  | none => false) = some p)
    (hpt : p.test_time_dt = some pt) :
    resolveFail idx r =
      { r with
        row_open := some false
        clear_time := some (some pt)
        ttc_minutes := some (some (pyRound2 (((pt : ℚ) - (t : ℚ)) / 60))) } := by
  simp only [resolveFail, ht]
  rw [if_neg (by rintro (h | h); exacts [hsn h, hsg h])]
  simp only [hfind, hpt]

/-- `resolveFail` on a timestamped FAIL row with usable key, when no clearing
PASS is found: the row stays open. -/
theorem resolveFail_open (idx : List ((String × String) × List Row)) (r : Row) (t : Nat)
    (ht : r.test_time_dt = some t) (hsn : ¬snKeyOf r = "")
    (hsg : ¬r.station_group.getD "" = "")
    (hfind : ((alookup idx (snKeyOf r, r.station_group.getD "")).getD []).find?
        (fun q => match q.test_time_dt with
                  | some qt => decide (qt > t)
                  | none => false) = none) :
    resolveFail idx r =
      { r with
        row_open := some true
        clear_time := some none
        ttc_minutes := some none } := by
  simp only [resolveFail, ht]
  rw [if_neg (by rintro (h | h); exacts [hsn h, hsg h])]
  simp only [hfind]

/-- `resolveFail` on a FAIL row with no timestamp: the row stays open. -/
theorem resolveFail_noTime (idx : List ((String × String) × List Row)) (r : Row)
    (ht : r.test_time_dt = none) :
    resolveFail idx r =
      { r with
        row_open := some true
        clear_time := some none
        ttc_minutes := some none } := by
  simp only [resolveFail, ht]

/-- In a list sorted ascending by `test_time_dt or 0`, `find?` for the first
row strictly later than `t` returns a row whose timestamp is the minimal
qualifying clear time. -/
theorem find_first_clear (t ct : Nat) (S : List Row)
    (hsort : S.Pairwise fun a b =>
      decide ((a.test_time_dt.getD 0) ≤ (b.test_time_dt.getD 0)) = true)
    (pw : Row) (hpwS : pw ∈ S) (hpwdt : pw.test_time_dt = some ct) (hpwlt : t < ct)
    (hmin : ∀ p ∈ S, t < p.test_time_dt.getD 0 → ct ≤ p.test_time_dt.getD 0) :
    ∃ p0, S.find? (fun q => match q.test_time_dt with
        | some qt => decide (qt > t)
        | none => false) = some p0 ∧ p0.test_time_dt = some ct := by
  have hpred : (fun q : Row => match q.test_time_dt with
      | some qt => decide (qt > t)
      | none => false) pw = true := by
    simp only [hpwdt]
    exact decide_eq_true hpwlt
  have hs : (S.find? (fun q => match q.test_time_dt with
      | some qt => decide (qt > t)
      | none => false)).isSome :=
    List.find?_isSome.mpr ⟨pw, hpwS, hpred⟩
  obtain ⟨p0, hfp0⟩ := Option.isSome_iff_exists.mp hs
  have hp0pred := List.find?_some hfp0
  have hp0S := List.mem_of_find?_eq_some hfp0
  cases hdt : p0.test_time_dt with
  | none => simp [hdt] at hp0pred
  | some pt0 =>
    simp only [hdt] at hp0pred
    have hlt0 : t < pt0 := of_decide_eq_true hp0pred
    have h1 : ct ≤ pt0 := by
      simpa [hdt] using hmin p0 hp0S (by rw [hdt]; exact hlt0)
    have h2 : pt0 ≤ ct := by
      have h3 := find?_sorted_minimal
        (fun a b => decide ((a.test_time_dt.getD 0) ≤ (b.test_time_dt.getD 0)))
        (fun q => match q.test_time_dt with
          | some qt => decide (qt > t)
          | none => false)
        (fun a => by simp) S hsort p0 hfp0 pw hpwS hpred
      have h4 := of_decide_eq_true h3
      rw [hdt, hpwdt] at h4
      simpa using h4
    exact ⟨p0, hfp0, by rw [hdt, Nat.le_antisymm h2 h1]⟩

/-- If no row of the list is strictly later than `t`, the clear search fails. -/
theorem find_no_clear (t : Nat) (S : List Row)
    (hnone : ∀ p ∈ S, ¬t < p.test_time_dt.getD 0) :
    S.find? (fun q => match q.test_time_dt with
      | some qt => decide (qt > t)
      | none => false) = none := by
  refine List.find?_eq_none.mpr ?_
  intro x hx hpred
  cases hdt : x.test_time_dt with
  | none => simp [hdt] at hpred
  | some pt =>
    simp only [hdt] at hpred
    exact hnone x hx (by rw [hdt]; exact of_decide_eq_true hpred)

/-- C3: for a FAIL row (normalised result `"FAIL"`) with non-blank SN,
non-empty station group and timestamp `t`, `infer_clear_times` clears it with
the earliest strictly-later PASS of the same `(SN, station_group)` —
`open = False`, `clear_time` = that PASS timestamp `ct`, `ttc_minutes` =
`round((ct - t)/60, 2)` — and leaves it open (`open = True`,
`clear_time = None`, `ttc_minutes = None`) when no such PASS exists or the
FAIL timestamp is missing. -/
theorem C3_clear_time_inference (rows : List Row) (i : Nat) (r : Row)
    (hr : rows[i]? = some r)
    (hfail : pyNorm r.result = "FAIL")
    (hsn : ¬snKeyOf r = "")
    (hsg : ¬station_group (r.station.getD "") = "") :
    (∀ t ct : Nat, r.test_time_dt = some t →
      (∃ p ∈ normalize_rows rows, isPassRowNorm p = true ∧ snKeyOf p = snKeyOf r ∧
        p.station_group.getD "" = station_group (r.station.getD "") ∧
        p.test_time_dt = some ct ∧ t < ct) →
      (∀ p ∈ normalize_rows rows, isPassRowNorm p = true → snKeyOf p = snKeyOf r →
        p.station_group.getD "" = station_group (r.station.getD "") →
        t < p.test_time_dt.getD 0 → ct ≤ p.test_time_dt.getD 0) →
      (infer_clear_times rows)[i]? = some
        { normalizeRow r with
          row_open := some false
          clear_time := some (some ct)
          ttc_minutes := some (some (pyRound2 (((ct : ℚ) - (t : ℚ)) / 60))) }) ∧
    (∀ t : Nat, r.test_time_dt = some t →
      (¬∃ p ∈ normalize_rows rows, isPassRowNorm p = true ∧ snKeyOf p = snKeyOf r ∧
        p.station_group.getD "" = station_group (r.station.getD "") ∧
        t < p.test_time_dt.getD 0) →
      (infer_clear_times rows)[i]? = some
        { normalizeRow r with
          row_open := some true
          clear_time := some none
          ttc_minutes := some none }) ∧
    (r.test_time_dt = none →
      (infer_clear_times rows)[i]? = some
        { normalizeRow r with
          row_open := some true
          clear_time := some none
          ttc_minutes := some none }) := by
  have hnormi : (normalize_rows rows)[i]? = some (normalizeRow r) := by
    rw [normalize_rows, List.getElem?_map, hr]
    rfl
  have houti : (infer_clear_times rows)[i]? =
      some (if isFailRowNorm (normalizeRow r) then
          resolveFail (passIndex (normalize_rows rows)) (normalizeRow r)
        else normalizeRow r) := by
    show ((normalize_rows rows).map fun q =>
        if isFailRowNorm q then resolveFail (passIndex (normalize_rows rows)) q else q)[i]? = _
    rw [List.getElem?_map, hnormi]
    rfl
  have hfail' : isFailRowNorm (normalizeRow r) = true := decide_eq_true hfail
  have hsn' : ¬snKeyOf (normalizeRow r) = "" := hsn
  have hsg' : ¬(normalizeRow r).station_group.getD "" = "" := hsg
  have hkey : ∀ p : Row,
      passKeyOf p = some (snKeyOf r, station_group (r.station.getD "")) ↔
      (snKeyOf p = snKeyOf r ∧
        p.station_group.getD "" = station_group (r.station.getD "")) := by
    intro p
    show (if snKeyOf p = "" ∨ p.station_group.getD "" = "" then none
        else some (snKeyOf p, p.station_group.getD "")) = _ ↔ _
    by_cases hc : snKeyOf p = "" ∨ p.station_group.getD "" = ""
    · rw [if_pos hc]
      constructor
      · intro h; cases h
      · rintro ⟨h1, h2⟩
        rcases hc with hc | hc
        · exact absurd (h1.symm.trans hc) hsn
        · exact absurd (h2.symm.trans hc) hsg
    · rw [if_neg hc]
      constructor
      · intro h
        injection h with h'
        exact ⟨congrArg Prod.fst h', congrArg Prod.snd h'⟩
      · rintro ⟨h1, h2⟩
        rw [h1, h2]
  have hidx : alookup (passIndex (normalize_rows rows))
      (snKeyOf r, station_group (r.station.getD "")) =
      (alookup (groupByKey passKeyOf ((normalize_rows rows).filter isPassRowNorm))
        (snKeyOf r, station_group (r.station.getD ""))).map
        (isortBy fun a b => decide ((a.test_time_dt.getD 0) ≤ (b.test_time_dt.getD 0))) := by
    rw [passIndex]
    exact alookup_map_snd _
      (isortBy fun a b : Row => decide ((a.test_time_dt.getD 0) ≤ (b.test_time_dt.getD 0))) _
  refine ⟨?_, ?_, ?_⟩
  · intro t ct ht hex hmin
    obtain ⟨pw, hpwmem, hpwpass, hpwsn, hpwsg, hpwdt, hpwlt⟩ := hex
    have hkmem : (snKeyOf r, station_group (r.station.getD "")) ∈
        keysOf (groupByKey passKeyOf ((normalize_rows rows).filter isPassRowNorm)) :=
      (mem_keys_groupByKey _ _ _).mpr
        ⟨pw, List.mem_filter.mpr ⟨hpwmem, hpwpass⟩, (hkey pw).mpr ⟨hpwsn, hpwsg⟩⟩
    have hgl := alookup_groupByKey_of_mem passKeyOf
      ((normalize_rows rows).filter isPassRowNorm) _ hkmem
    have halook : alookup (passIndex (normalize_rows rows))
        (snKeyOf r, station_group (r.station.getD "")) =
        some (isortBy (fun a b => decide ((a.test_time_dt.getD 0) ≤ (b.test_time_dt.getD 0)))
          (((normalize_rows rows).filter isPassRowNorm).filter
            fun x => passKeyOf x = some (snKeyOf r, station_group (r.station.getD "")))) := by
      rw [hidx, hgl]
      rfl
    have hpwG : pw ∈ ((normalize_rows rows).filter isPassRowNorm).filter
        (fun x => passKeyOf x = some (snKeyOf r, station_group (r.station.getD ""))) :=
      List.mem_filter.mpr ⟨List.mem_filter.mpr ⟨hpwmem, hpwpass⟩,
        decide_eq_true ((hkey pw).mpr ⟨hpwsn, hpwsg⟩)⟩
    have hpwS : pw ∈ isortBy
        (fun a b => decide ((a.test_time_dt.getD 0) ≤ (b.test_time_dt.getD 0)))
        (((normalize_rows rows).filter isPassRowNorm).filter
          fun x => passKeyOf x = some (snKeyOf r, station_group (r.station.getD ""))) :=
      ((perm_isortBy _ _).mem_iff).mpr hpwG
    have hsort := pairwise_isortBy
      (fun a b : Row => decide ((a.test_time_dt.getD 0) ≤ (b.test_time_dt.getD 0)))
      (fun a b => by
        rcases Nat.le_total (a.test_time_dt.getD 0) (b.test_time_dt.getD 0) with h | h <;>
          simp [h])
      (fun a b c hab hbc => by
        simp only [decide_eq_true_eq] at hab hbc ⊢
        exact Nat.le_trans hab hbc)
      (((normalize_rows rows).filter isPassRowNorm).filter
        fun x => passKeyOf x = some (snKeyOf r, station_group (r.station.getD "")))
    have hminS : ∀ p ∈ isortBy
        (fun a b => decide ((a.test_time_dt.getD 0) ≤ (b.test_time_dt.getD 0)))
        (((normalize_rows rows).filter isPassRowNorm).filter
          fun x => passKeyOf x = some (snKeyOf r, station_group (r.station.getD ""))),
        t < p.test_time_dt.getD 0 → ct ≤ p.test_time_dt.getD 0 := by
      intro p hpS hlt
      have hpG := ((perm_isortBy _ _).mem_iff).mp hpS
      have h1 := List.mem_filter.mp hpG
      have h2 := List.mem_filter.mp h1.1
      have h3 := (hkey p).mp (of_decide_eq_true h1.2)
      exact hmin p h2.1 h2.2 h3.1 h3.2 hlt
    obtain ⟨p0, hfp0, hp0dt⟩ :=
      find_first_clear t ct _ hsort pw hpwS hpwdt hpwlt hminS
    have hfind : ((alookup (passIndex (normalize_rows rows))
        (snKeyOf r, station_group (r.station.getD ""))).getD []).find?
        (fun q => match q.test_time_dt with
          | some qt => decide (qt > t)
          | none => false) = some p0 := by
      rw [halook]
      exact hfp0
    rw [houti, if_pos hfail',
      resolveFail_clear (passIndex (normalize_rows rows)) (normalizeRow r) t ht
        hsn' hsg' p0 ct hfind hp0dt]
  · intro t ht hnone
    have hfind : ((alookup (passIndex (normalize_rows rows))
        (snKeyOf r, station_group (r.station.getD ""))).getD []).find?
        (fun q => match q.test_time_dt with
          | some qt => decide (qt > t)
          | none => false) = none := by
      apply find_no_clear
      intro p hpS hlt
      cases hgl : alookup (groupByKey passKeyOf ((normalize_rows rows).filter isPassRowNorm))
          (snKeyOf r, station_group (r.station.getD "")) with
      | none =>
        rw [hidx, hgl] at hpS
        simp at hpS
      | some L =>
        rw [hidx, hgl] at hpS
        simp only [Option.map_some', Option.getD_some] at hpS
        have hpL : p ∈ L := ((perm_isortBy _ _).mem_iff).mp hpS
        have hLval : L = ((normalize_rows rows).filter isPassRowNorm).filter
            (fun x => passKeyOf x =
              some (snKeyOf r, station_group (r.station.getD ""))) :=
          groupByKey_entries passKeyOf ((normalize_rows rows).filter isPassRowNorm)
            ((snKeyOf r, station_group (r.station.getD "")), L)
            (mem_of_alookup_eq_some _ _ _ hgl)
        rw [hLval] at hpL
        have h1 := List.mem_filter.mp hpL
        have h2 := List.mem_filter.mp h1.1
        have h3 := (hkey p).mp (of_decide_eq_true h1.2)
        exact hnone ⟨p, h2.1, h2.2, h3.1, h3.2, hlt⟩
    rw [houti, if_pos hfail',
      resolveFail_open (passIndex (normalize_rows rows)) (normalizeRow r) t ht
        hsn' hsg' hfind]
  · intro ht
    rw [houti, if_pos hfail',
      resolveFail_noTime (passIndex (normalize_rows rows)) (normalizeRow r) ht]

/-- C3 witness: a FAIL at `t = 36000` for `(B, AST)` cleared by a PASS at
`t = 37200` gets `open = false`, `clear_time = 37200` and
`ttc_minutes = round((37200 - 36000)/60, 2)`. -/
theorem C3_clear_time_inference_witness :
    (infer_clear_times
        [{ serial_number := some "B", station := some "AST", result := some "FAIL",
           test_time_dt := some 36000 },
         { serial_number := some "B", station := some "AST", result := some "PASS",
           test_time_dt := some 37200 }])[0]? = some
      { normalizeRow { serial_number := some "B", station := some "AST",
                       result := some "FAIL", test_time_dt := some 36000 } with
        row_open := some false
        clear_time := some (some 37200)
        ttc_minutes := some (some (pyRound2 (((37200 : ℚ) - (36000 : ℚ)) / 60))) } :=
  (C3_clear_time_inference
      [{ serial_number := some "B", station := some "AST", result := some "FAIL",
         test_time_dt := some 36000 },
       { serial_number := some "B", station := some "AST", result := some "PASS",
         test_time_dt := some 37200 }] 0
      { serial_number := some "B", station := some "AST", result := some "FAIL",
        test_time_dt := some 36000 }
      (by decide) (by decide) (by decide) (by decide)).1
    36000 37200 rfl (by decide) (by decide)

/-- C9: in `compute_ttc_overall`, whenever the resolved TTC values are
non-empty, `p90_ttc_minutes` is the ascending-sorted value at nearest-rank
index `min(floor(n * p90_fraction), n - 1)` rounded to 2 decimals (stated for
any sorted permutation `l` of the values; `floor` agrees with the source's
`int(...)` truncation because the fraction is non-negative), and whenever the
value list is empty, median, mean and p90 are all `None`. -/
theorem C9_ttc_overall_p90 (cfg : Config) (resolved_rows open_rows : List Row) :
    (∀ l : List ℚ, (resolved_rows.filterMap Row.ttcVal).Perm l →
      l.Pairwise (· ≤ ·) → l ≠ [] → 0 ≤ cfg.p90 →
      (compute_ttc_overall cfg resolved_rows open_rows).p90_ttc_minutes =
        some (pyRound2 (l.getD
          (min ⌊((resolved_rows.filterMap Row.ttcVal).length : ℚ) * cfg.p90⌋
            (((resolved_rows.filterMap Row.ttcVal).length : Int) - 1)).toNat 0))) ∧
    ((resolved_rows.filterMap Row.ttcVal) = [] →
      (compute_ttc_overall cfg resolved_rows open_rows).median_ttc_minutes = none ∧
      (compute_ttc_overall cfg resolved_rows open_rows).mean_ttc_minutes = none ∧
      (compute_ttc_overall cfg resolved_rows open_rows).p90_ttc_minutes = none) := by
  have hp90 : (compute_ttc_overall cfg resolved_rows open_rows).p90_ttc_minutes =
      (if (resolved_rows.filterMap Row.ttcVal).isEmpty then none
       else some (pyRound2 ((isortBy (fun a b : ℚ => decide (a ≤ b))
           (resolved_rows.filterMap Row.ttcVal)).getD
         (min (pyTrunc (((resolved_rows.filterMap Row.ttcVal).length : ℚ) * cfg.p90))
           (((resolved_rows.filterMap Row.ttcVal).length : Int) - 1)).toNat 0))) := rfl
  constructor
  · intro l hpl hl hlne hp
    have hvne : resolved_rows.filterMap Row.ttcVal ≠ [] := by
      intro h
      rw [h] at hpl
      exact hlne hpl.symm.eq_nil
    obtain ⟨a, t, hcons⟩ := List.exists_cons_of_ne_nil hvne
    have hemp : (resolved_rows.filterMap Row.ttcVal).isEmpty = false := by
      rw [hcons]
      rfl
    have htot : ∀ a b : ℚ, (decide (a ≤ b) || decide (b ≤ a)) = true := by
      intro a b
      rcases le_total a b with h | h <;> simp [h]
    have htrans : ∀ a b c : ℚ, decide (a ≤ b) = true → decide (b ≤ c) = true →
        decide (a ≤ c) = true := by
      intro a b c h1 h2
      simp only [decide_eq_true_eq] at h1 h2 ⊢
      exact le_trans h1 h2
    have hperm : (isortBy (fun a b : ℚ => decide (a ≤ b))
        (resolved_rows.filterMap Row.ttcVal)).Perm l :=
      (perm_isortBy _ _).trans hpl
    have hs1 : (isortBy (fun a b : ℚ => decide (a ≤ b))
        (resolved_rows.filterMap Row.ttcVal)).Pairwise (· ≤ ·) :=
      (pairwise_isortBy _ htot htrans _).imp fun h => of_decide_eq_true h
    have hsorteq := List.eq_of_perm_of_sorted hperm hs1 hl
    have hnn : (0 : ℚ) ≤ ((resolved_rows.filterMap Row.ttcVal).length : ℚ) * cfg.p90 :=
      mul_nonneg (Nat.cast_nonneg _) hp
    have htr : pyTrunc (((resolved_rows.filterMap Row.ttcVal).length : ℚ) * cfg.p90) =
        ⌊((resolved_rows.filterMap Row.ttcVal).length : ℚ) * cfg.p90⌋ := by
      simp only [pyTrunc]
      rw [if_pos hnn]
    rw [hp90, hemp]
    simp only [Bool.false_eq_true, if_false]
    rw [hsorteq, htr]
  · intro h
    refine ⟨?_, ?_, ?_⟩ <;> simp [compute_ttc_overall, h]

/-- C9 witness: two resolved rows with TTC values 5 and 3 give the sorted
list `[3, 5]` and the p90 index selects its entry. -/
theorem C9_ttc_overall_p90_witness :
    (compute_ttc_overall defaultConfig
        [{ ttc_minutes := some (some 5) }, { ttc_minutes := some (some 3) }]
        []).p90_ttc_minutes =
      some (pyRound2 (([3, 5] : List ℚ).getD
        (min ⌊((([{ ttc_minutes := some (some 5) },
              { ttc_minutes := some (some 3) }] : List Row).filterMap
                Row.ttcVal).length : ℚ) * defaultConfig.p90⌋
          ((([{ ttc_minutes := some (some 5) },
              { ttc_minutes := some (some 3) }] : List Row).filterMap
                Row.ttcVal).length - 1)).toNat 0)) :=
  (C9_ttc_overall_p90 defaultConfig
      [{ ttc_minutes := some (some 5) }, { ttc_minutes := some (some 3) }] []).1
    [3, 5] (by decide) (by decide) (by decide)
    (div_nonneg (by decide) (by decide))

/-- Folding index-updates over a list of indices all different from `j`
leaves cell `j` unchanged. -/
theorem getElem?_foldl_update (g : List Row → Nat → List Row)
    (hg : ∀ hh b j, b ≠ j → (g hh b)[j]? = hh[j]?)
    (as : List Nat) (h0 : List Row) (j : Nat) (hj : ∀ a ∈ as, a ≠ j) :
    (as.foldl g h0)[j]? = h0[j]? := by
  induction as generalizing h0 with
  | nil => rfl
  | cons a t ih =>
    rw [List.foldl_cons, ih (g h0 a) (fun b hb => hj b (List.mem_cons_of_mem a hb)),
      hg h0 a j (hj a (List.mem_cons_self a t))]

/-- C10: `compute_error_stats` never mutates its input rows.  In the heap
model, `normalize_rows` allocates fresh copies at the end of the heap and
`infer_clear_times` writes only at those fresh addresses, so every heap cell
the caller's address list points at is unchanged after
`compute_error_stats`. -/
theorem C10_no_input_mutation (cfg : Config) (h : List Row) (addrs : List Nat)
    (k : Nat) (hb : ∀ a ∈ addrs, a < h.length) :
    ∀ a ∈ addrs, ((computeErrorStatsH cfg h addrs k).1).getD a {} = h.getD a {} := by
  intro a ha
  have hlt := hb a ha
  show ((inferClearTimesH h addrs).1).getD a {} = h.getD a {}
  simp only [inferClearTimesH, normalizeRowsH]
  rw [List.getD_eq_getElem?_getD, List.getD_eq_getElem?_getD]
  refine congrArg (fun o : Option Row => o.getD {}) ?_
  rw [getElem?_foldl_update _ (fun hh b j hne => List.getElem?_set_ne hne) _ _ _ ?_]
  · exact List.getElem?_append_left hlt
  · intro b hbmem
    have hbr := (List.mem_filter.mp hbmem).1
    have hge := (List.mem_range'_1.mp hbr).1
    omega

/-- C10 witness: a one-row heap with the caller's address `0`; the cell at
address `0` is unchanged by `compute_error_stats`. -/
theorem C10_no_input_mutation_witness :
    ((computeErrorStatsH defaultConfig
        [{ serial_number := some "A", result := some "PASS" }] [0] 0).1).getD 0 {} =
      ([{ serial_number := some "A", result := some "PASS" }] : List Row).getD 0 {} :=
  C10_no_input_mutation defaultConfig
    [{ serial_number := some "A", result := some "PASS" }] [0] 0
    (by decide) 0 (by decide)

end SFC
